import Mathlib

/-!
Verification of the render-state deduplication cache, shader uniform
reflection engine and uniform binder of the `kbirk/render` Go repository.

The Go source is shallowly embedded: Go `int32` arithmetic is modeled as
`Int` with explicit two's-complement wrapping where overflow matters, Go
strings handled byte-wise are `List Nat` byte sequences, pointer-typed
references compared by identity are modeled as `Option Nat` identities,
Go maps are modeled as association lists (with a canonical iteration
order where the Go map order is unspecified; no proved statement depends
on that order), and Go code that can panic (nil-pointer dereference)
returns an `Option` / carries an explicit completion flag.

Every device (OpenGL) call issued by the embedded code is recorded in a
`Call` trace so that claims about "device state-changing calls" can be
stated as properties of the trace.
-/

/-- Go strings manipulated byte-wise by the reflection code, modeled as
lists of bytes. -/
abbrev GoStr := List Nat

/-! OpenGL enum constants referenced by the embedded source, with the
decimal values of the corresponding GL constants. -/

/-- gl.SAMPLER_2D -/
def glSAMPLER_2D : Nat := 35678
/-- gl.SAMPLER_CUBE -/
def glSAMPLER_CUBE : Nat := 35680
/-- gl.INT -/
def glINT : Nat := 5124
/-- gl.UNSIGNED_INT -/
def glUNSIGNED_INT : Nat := 5125
/-- gl.FLOAT -/
def glFLOAT : Nat := 5126
/-- gl.FLOAT_VEC2 -/
def glFLOAT_VEC2 : Nat := 35664
/-- gl.FLOAT_VEC3 -/
def glFLOAT_VEC3 : Nat := 35665
/-- gl.FLOAT_VEC4 -/
def glFLOAT_VEC4 : Nat := 35666
/-- gl.FLOAT_MAT3 -/
def glFLOAT_MAT3 : Nat := 35675
/-- gl.FLOAT_MAT4 -/
def glFLOAT_MAT4 : Nat := 35676
/-- gl.FRAMEBUFFER -/
def glFRAMEBUFFER : Nat := 36160
/-- gl.TEXTURE_2D -/
def glTEXTURE_2D : Nat := 3553
/-- gl.FRAMEBUFFER_COMPLETE -/
def glFRAMEBUFFER_COMPLETE : Nat := 36053
/-- gl.FRAMEBUFFER_UNDEFINED -/
def glFRAMEBUFFER_UNDEFINED : Nat := 33305
/-- gl.FRAMEBUFFER_INCOMPLETE_ATTACHMENT -/
def glFRAMEBUFFER_INCOMPLETE_ATTACHMENT : Nat := 36054
/-- gl.FRAMEBUFFER_INCOMPLETE_MISSING_ATTACHMENT -/
def glFRAMEBUFFER_INCOMPLETE_MISSING_ATTACHMENT : Nat := 36055
/-- gl.FRAMEBUFFER_INCOMPLETE_DRAW_BUFFER -/
def glFRAMEBUFFER_INCOMPLETE_DRAW_BUFFER : Nat := 36059
/-- gl.FRAMEBUFFER_INCOMPLETE_READ_BUFFER -/
def glFRAMEBUFFER_INCOMPLETE_READ_BUFFER : Nat := 36060
/-- gl.FRAMEBUFFER_UNSUPPORTED -/
def glFRAMEBUFFER_UNSUPPORTED : Nat := 36061
/-- gl.FRAMEBUFFER_INCOMPLETE_MULTISAMPLE -/
def glFRAMEBUFFER_INCOMPLETE_MULTISAMPLE : Nat := 36182
/-- gl.FRAMEBUFFER_INCOMPLETE_LAYER_TARGETS -/
def glFRAMEBUFFER_INCOMPLETE_LAYER_TARGETS : Nat := 36264

/-- A device (OpenGL) call issued by the embedded code. Float32 payloads
are carried as uninterpreted bit patterns (`Nat`); pointer payloads are
carried as uninterpreted addresses (`Nat`). The constant `transpose =
false` argument of the matrix calls is omitted. -/
inductive Call where
  | bindFramebuffer (id : Nat)
  | useProgram (id : Nat)
  | enable (cap : Nat)
  | disable (cap : Nat)
  | blendFunc (sfactor dfactor : Nat)
  | cullFace (mode : Nat)
  | depthMask (flag : Bool)
  | depthFunc (xfunc : Nat)
  | viewport (x y width height : Int)
  | activeTexture (unit : Nat)
  | bindTexture (target id : Nat)
  | bindVertexArray (id : Nat)
  | drawArrays (mode : Nat) (first count : Int)
  | drawElements (mode : Nat) (count : Int) (typ : Nat) (byteOffset : Int)
  | drawArraysInstanced (mode : Nat) (first count primcount : Int)
  | drawElementsInstanced (mode : Nat) (count : Int) (typ : Nat) (byteOffset primcount : Int)
  | framebufferTexture2D (target attachment textarget texture : Nat) (level : Int)
  | uniformBlockBinding (program blockIndex binding : Nat)
  | uniform1i (location : Int) (v : Int)
  | uniform1ui (location : Int) (v : Nat)
  | uniform1f (location : Int) (bits : Nat)
  | uniform1iv (location count : Int) (ptr : Nat)
  | uniform1uiv (location count : Int) (ptr : Nat)
  | uniform1fv (location count : Int) (ptr : Nat)
  | uniform2fv (location count : Int) (ptr : Nat)
  | uniform3fv (location count : Int) (ptr : Nat)
  | uniform4fv (location count : Int) (ptr : Nat)
  | uniformMatrix3fv (location count : Int) (ptr : Nat)
  | uniformMatrix4fv (location count : Int) (ptr : Nat)
deriving DecidableEq

/-- Wrap an integer into the Go `int32` two's-complement range; Go
integer arithmetic wraps silently on overflow. -/
def wrap32 (n : Int) : Int := (n + 2 ^ 31) % 2 ^ 32 - 2 ^ 31

/-- Association-list lookup, modeling a Go map read. -/
def lookupD {κ α : Type} [DecidableEq κ] : List (κ × α) → κ → Option α
  | [], _ => none
  | (k, v) :: rest, key => if k = key then some v else lookupD rest key

/-- Association-list insert with overwrite, modeling a Go map write
(the stale binding is removed, the new binding is appended). -/
def insertD {κ α : Type} [DecidableEq κ] : List (κ × α) → κ → α → List (κ × α)
  | [], key, v => [(key, v)]
  | (k, v') :: rest, key, v => if k = key then insertD rest key v else (k, v') :: insertD rest key v

/-- Model of `UniformDescriptor` (src texture.go part): attributes of one
standalone shader uniform. The Go field `Type` is renamed `typ` because
`Type` is reserved in Lean. -/
structure UniformDescriptor where
  Name : GoStr
  typ : Nat
  Count : Int
  Location : Int
deriving DecidableEq

/-- Model of `UniformBlockDescriptor` (src texture.go part): attributes of one
shader uniform block. `Offsets` models the Go `map[string]int32`. -/
structure UniformBlockDescriptor where
  Name : GoStr
  Index : Nat
  Size : Int
  Offsets : List (GoStr × Int)
  Alignment : Int
deriving DecidableEq

/-- Model of `UniformBlockDescriptor.AlignedSize` (src texture.go part):
`u.Size + u.Alignment - (u.Size % u.Alignment)` in Go `int32`
arithmetic (`%` is Go's truncated remainder, hence `Int.tmod`). -/
def UniformBlockDescriptor.AlignedSize (u : UniformBlockDescriptor) : Int :=
  wrap32 (wrap32 (u.Size + u.Alignment) - Int.tmod u.Size u.Alignment)

/-- Model of `UniformBlockDescriptor.UnAlignedSize` (src texture.go part). -/
def UniformBlockDescriptor.UnAlignedSize (u : UniformBlockDescriptor) : Int :=
  u.Size

/-- The dynamic (`interface{}`) value passed to `SetUniform`, classified
by the runtime representations the shader code type-asserts against.
`otherV` stands for a value of any other dynamic type. -/
inductive UniformValue where
  | int32V (v : Int)
  | uint32V (v : Nat)
  | float32V (bits : Nat)
  | ptrInt32 (addr : Nat)
  | ptrUint32 (addr : Nat)
  | ptrFloat32 (addr : Nat)
  | otherV
deriving DecidableEq

/-- The runtime shape a `SetUniform` helper type-asserts its argument
against. -/
inductive GoType where
  | tInt32
  | tUint32
  | tFloat32
  | tPtrInt32
  | tPtrUint32
  | tPtrFloat32
deriving DecidableEq

/-- Errors returned by the uniform binder (src shader.go `fmt.Errorf`
results, given a typed form): an unrecognized uniform name, or an
argument whose dynamic type fails the helper's type assertion. -/
inductive UniformError where
  | unrecognized (name : GoStr)
  | typeMismatch (expected : GoType)
deriving DecidableEq

/-- Model of `Shader.SetUniform1i` (src shader.go): type-asserts `int32`, then
issues `gl.Uniform1i`. Result: (device calls issued, error). -/
def SetUniform1i (location : Int) (arg : UniformValue) : List Call × Option UniformError :=
  match arg with
  | .int32V v => ([Call.uniform1i location v], none)
  | _ => ([], some (.typeMismatch .tInt32))

/-- Model of `Shader.SetUniform1ui` (src shader.go). -/
def SetUniform1ui (location : Int) (arg : UniformValue) : List Call × Option UniformError :=
  match arg with
  | .uint32V v => ([Call.uniform1ui location v], none)
  | _ => ([], some (.typeMismatch .tUint32))

/-- Model of `Shader.SetUniform1f` (src shader.go). -/
def SetUniform1f (location : Int) (arg : UniformValue) : List Call × Option UniformError :=
  match arg with
  | .float32V bits => ([Call.uniform1f location bits], none)
  | _ => ([], some (.typeMismatch .tFloat32))

/-- Model of `Shader.SetUniform1iv` (src shader.go): type-asserts `*int32`. -/
def SetUniform1iv (location count : Int) (arg : UniformValue) : List Call × Option UniformError :=
  match arg with
  | .ptrInt32 addr => ([Call.uniform1iv location count addr], none)
  | _ => ([], some (.typeMismatch .tPtrInt32))

/-- Model of `Shader.SetUniform1uiv` (src shader.go). -/
def SetUniform1uiv (location count : Int) (arg : UniformValue) : List Call × Option UniformError :=
  match arg with
  | .ptrUint32 addr => ([Call.uniform1uiv location count addr], none)
  | _ => ([], some (.typeMismatch .tPtrUint32))

/-- Model of `Shader.SetUniform1fv` (src shader.go): type-asserts `*float32`. -/
def SetUniform1fv (location count : Int) (arg : UniformValue) : List Call × Option UniformError :=
  match arg with
  | .ptrFloat32 addr => ([Call.uniform1fv location count addr], none)
  | _ => ([], some (.typeMismatch .tPtrFloat32))

/-- Model of `Shader.SetUniform2fv` (src shader.go). -/
def SetUniform2fv (location count : Int) (arg : UniformValue) : List Call × Option UniformError :=
  match arg with
  | .ptrFloat32 addr => ([Call.uniform2fv location count addr], none)
  | _ => ([], some (.typeMismatch .tPtrFloat32))

/-- Model of `Shader.SetUniform3fv` (src shader.go). -/
def SetUniform3fv (location count : Int) (arg : UniformValue) : List Call × Option UniformError :=
  match arg with
  | .ptrFloat32 addr => ([Call.uniform3fv location count addr], none)
  | _ => ([], some (.typeMismatch .tPtrFloat32))

/-- Model of `Shader.SetUniform4fv` (src shader.go). -/
def SetUniform4fv (location count : Int) (arg : UniformValue) : List Call × Option UniformError :=
  match arg with
  | .ptrFloat32 addr => ([Call.uniform4fv location count addr], none)
  | _ => ([], some (.typeMismatch .tPtrFloat32))

/-- Model of `Shader.SetUniformMatrix3fv` (src shader.go). -/
def SetUniformMatrix3fv (location count : Int) (arg : UniformValue) : List Call × Option UniformError :=
  match arg with
  | .ptrFloat32 addr => ([Call.uniformMatrix3fv location count addr], none)
  | _ => ([], some (.typeMismatch .tPtrFloat32))

/-- Model of `Shader.SetUniformMatrix4fv` (src shader.go). -/
def SetUniformMatrix4fv (location count : Int) (arg : UniformValue) : List Call × Option UniformError :=
  match arg with
  | .ptrFloat32 addr => ([Call.uniformMatrix4fv location count addr], none)
  | _ => ([], some (.typeMismatch .tPtrFloat32))

/-- Model of `Shader.SetUniform` (src shader.go): looks the name up in the
descriptor map, then dispatches on `descriptor.Type` exactly as the Go
`switch` does; the Go switch's implicit default falls through to
`return nil`. -/
def SetUniform (descriptors : List (GoStr × UniformDescriptor)) (name : GoStr)
    (arg : UniformValue) : List Call × Option UniformError :=
  match lookupD descriptors name with
  | none => ([], some (.unrecognized name))
  | some descriptor =>
    if descriptor.typ = glSAMPLER_2D then SetUniform1i descriptor.Location arg
    else if descriptor.typ = glSAMPLER_CUBE then SetUniform1i descriptor.Location arg
    else if descriptor.typ = glINT then
      if 1 < descriptor.Count then SetUniform1iv descriptor.Location descriptor.Count arg
      else SetUniform1i descriptor.Location arg
    else if descriptor.typ = glUNSIGNED_INT then
      if 1 < descriptor.Count then SetUniform1uiv descriptor.Location descriptor.Count arg
      else SetUniform1ui descriptor.Location arg
    else if descriptor.typ = glFLOAT then
      if 1 < descriptor.Count then SetUniform1fv descriptor.Location descriptor.Count arg
      else SetUniform1f descriptor.Location arg
    else if descriptor.typ = glFLOAT_VEC2 then SetUniform2fv descriptor.Location descriptor.Count arg
    else if descriptor.typ = glFLOAT_VEC3 then SetUniform3fv descriptor.Location descriptor.Count arg
    else if descriptor.typ = glFLOAT_VEC4 then SetUniform4fv descriptor.Location descriptor.Count arg
    else if descriptor.typ = glFLOAT_MAT3 then SetUniformMatrix3fv descriptor.Location descriptor.Count arg
    else if descriptor.typ = glFLOAT_MAT4 then SetUniformMatrix4fv descriptor.Location descriptor.Count arg
    else ([], none)

/-- The uniform types handled by the `SetUniform` switch (every
non-default case label). -/
def handledType (typ : Nat) : Bool :=
  typ = glSAMPLER_2D ∨ typ = glSAMPLER_CUBE ∨ typ = glINT ∨ typ = glUNSIGNED_INT ∨
    typ = glFLOAT ∨ typ = glFLOAT_VEC2 ∨ typ = glFLOAT_VEC3 ∨ typ = glFLOAT_VEC4 ∨
    typ = glFLOAT_MAT3 ∨ typ = glFLOAT_MAT4

/-- The runtime shape the dispatch resolved from a descriptor expects of
its argument (`none` for descriptor types the switch does not handle). -/
def expectedGoType (d : UniformDescriptor) : Option GoType :=
  if d.typ = glSAMPLER_2D then some .tInt32
  else if d.typ = glSAMPLER_CUBE then some .tInt32
  else if d.typ = glINT then (if 1 < d.Count then some .tPtrInt32 else some .tInt32)
  else if d.typ = glUNSIGNED_INT then (if 1 < d.Count then some .tPtrUint32 else some .tUint32)
  else if d.typ = glFLOAT then (if 1 < d.Count then some .tPtrFloat32 else some .tFloat32)
  else if d.typ = glFLOAT_VEC2 then some .tPtrFloat32
  else if d.typ = glFLOAT_VEC3 then some .tPtrFloat32
  else if d.typ = glFLOAT_VEC4 then some .tPtrFloat32
  else if d.typ = glFLOAT_MAT3 then some .tPtrFloat32
  else if d.typ = glFLOAT_MAT4 then some .tPtrFloat32
  else none

/-- Whether a dynamic value satisfies the type assertion for a given
runtime shape. -/
def valueHasType (τ : GoType) (v : UniformValue) : Bool :=
  match τ, v with
  | .tInt32, .int32V _ => true
  | .tUint32, .uint32V _ => true
  | .tFloat32, .float32V _ => true
  | .tPtrInt32, .ptrInt32 _ => true
  | .tPtrUint32, .ptrUint32 _ => true
  | .tPtrFloat32, .ptrFloat32 _ => true
  | _, _ => false

/-- Errors returned by `FrameBuffer.AttachTexture` (src framebuffer.go),
given a typed form: a texture is already attached at the attachment id,
or the device's framebuffer-completeness check reported one of the
status enums (each `fmt.Errorf` case is one constructor; `unrecognized`
is the fallthrough "unrecognized framebuffer error"). -/
inductive FBError where
  | alreadyAttached (attachment : Nat)
  | undefinedDefault
  | incompleteAttachment
  | missingAttachment
  | incompleteDrawBuffer
  | incompleteReadBuffer
  | unsupported
  | incompleteMultisample
  | incompleteLayerTargets
  | unrecognized
deriving DecidableEq

/-- Model of `Texture` (src texture.go): only the device object id is relevant to
the calls the embedded operations issue. -/
structure Texture where
  id : Nat
deriving DecidableEq

/-- Model of `Texture.Bind` (src texture.go): activates the texture unit and
binds the texture. -/
def Texture.BindCalls (t : Texture) (location : Nat) : List Call :=
  [Call.activeTexture location, Call.bindTexture glTEXTURE_2D t.id]

/-- Model of `FrameBuffer` (src framebuffer.go): device object id plus the
attachment map (`map[uint32]*Texture`, modeled as an association
list). -/
structure FrameBuffer where
  id : Nat
  textures : List (Nat × Texture)
deriving DecidableEq

/-- Model of `FrameBuffer.checkAttachmentError` (src framebuffer.go): maps the
device-reported framebuffer status to `none` (complete) or the typed
error for that status. -/
def checkAttachmentError (status : Nat) : Option FBError :=
  if status = glFRAMEBUFFER_COMPLETE then none
  else if status = glFRAMEBUFFER_UNDEFINED then some .undefinedDefault
  else if status = glFRAMEBUFFER_INCOMPLETE_ATTACHMENT then some .incompleteAttachment
  else if status = glFRAMEBUFFER_INCOMPLETE_MISSING_ATTACHMENT then some .missingAttachment
  else if status = glFRAMEBUFFER_INCOMPLETE_DRAW_BUFFER then some .incompleteDrawBuffer
  else if status = glFRAMEBUFFER_INCOMPLETE_READ_BUFFER then some .incompleteReadBuffer
  else if status = glFRAMEBUFFER_UNSUPPORTED then some .unsupported
  else if status = glFRAMEBUFFER_INCOMPLETE_MULTISAMPLE then some .incompleteMultisample
  else if status = glFRAMEBUFFER_INCOMPLETE_LAYER_TARGETS then some .incompleteLayerTargets
  else some .unrecognized

/-- Model of `FrameBuffer.AttachTexture` (src framebuffer.go). The status the
device would report from `gl.CheckFramebufferStatus` is an input
(`status`), since the device is external. Returns the updated
framebuffer, the device calls issued, and the error. -/
def FrameBuffer.AttachTexture (f : FrameBuffer) (attachment : Nat) (texture : Texture)
    (status : Nat) : FrameBuffer × List Call × Option FBError :=
  match lookupD f.textures attachment with
  | some _ => (f, [], some (.alreadyAttached attachment))
  | none =>
    let calls := [Call.bindFramebuffer f.id,
      Call.framebufferTexture2D glFRAMEBUFFER attachment glTEXTURE_2D texture.id 0,
      Call.bindFramebuffer 0]
    match checkAttachmentError status with
    | none => ({ f with textures := insertD f.textures attachment texture }, calls, none)
    | some e => (f, calls, some e)

/-- Model of `IndexBuffer` (src indexbuffer.go): only the id is state. -/
structure IndexBuffer where
  id : Nat
deriving DecidableEq

/-- Model of `VertexBuffer` (src unnamed vertexbuffer part): only the id is
state. -/
structure VertexBuffer where
  id : Nat
deriving DecidableEq

/-- Model of `Renderable` (src renderable.go): the vertex-array object id, the
optional buffers, and the draw parameters (Go `int32` values as `Int`).
The attribute-pointer map is omitted: it is read only by `Upload`, which
no claim touches. -/
structure Renderable where
  id : Nat
  vertexbuffer : Option VertexBuffer
  indexbuffer : Option IndexBuffer
  mode : Nat
  count : Int
  first : Int
  typ : Nat
  byteOffset : Int
  primcount : Int
deriving DecidableEq

/-- Model of `Renderable.Draw` (src renderable.go): dispatches on the presence of
an index buffer and on `primcount > 0`. The underlying
`IndexBuffer.Draw` / `VertexBuffer.Draw` helpers never dereference
their receiver, so a nil buffer does not panic here. -/
def Renderable.DrawCalls (r : Renderable) : List Call :=
  match r.indexbuffer with
  | some _ =>
    if 0 < r.primcount then
      [Call.drawElementsInstanced r.mode r.count r.typ r.byteOffset r.primcount]
    else [Call.drawElements r.mode r.count r.typ r.byteOffset]
  | none =>
    if 0 < r.primcount then [Call.drawArraysInstanced r.mode r.first r.count r.primcount]
    else [Call.drawArrays r.mode r.first r.count]

/-- Model of `Command` (src unnamed command part): named uniform values, texture
bindings keyed by unit, and an optional drawable. The Go maps are
modeled as association lists iterated in list order (the Go map
iteration order is unspecified; no proved statement depends on it). -/
structure Command where
  uniforms : List (GoStr × UniformValue)
  textures : List (Nat × Texture)
  renderable : Option Renderable

/-- Concatenation of the call lists produced for each element of a
list. -/
def concatCalls {α : Type} (f : α → List Call) : List α → List Call
  | [] => []
  | x :: rest => f x ++ concatCalls f rest

/-- Model of `Command.Execute` (src unnamed command part): binds every texture,
pushes every uniform through `Shader.SetUniform` (whose error result the
Go code discards), then binds/draws/unbinds the renderable. The Go code
performs no nil check: when no renderable was ever set,
`c.renderable.Bind()` dereferences a nil pointer and panics. Result:
(device calls issued before completion or panic, whether execution
completed without panicking). -/
def Command.Execute (c : Command) (descriptors : List (GoStr × UniformDescriptor)) :
    List Call × Bool :=
  let textureCalls := concatCalls (fun lt => Texture.BindCalls lt.2 lt.1) c.textures
  let uniformCalls := concatCalls (fun nv => (SetUniform descriptors nv.1 nv.2).1) c.uniforms
  match c.renderable with
  | none => (textureCalls ++ uniformCalls, false)
  | some r =>
    (textureCalls ++ uniformCalls ++ [Call.bindVertexArray r.id] ++ r.DrawCalls ++
      [Call.bindVertexArray 0], true)

/-- Model of `blendFunc` (src technique.go). -/
structure BlendFunc where
  sfactor : Nat
  dfactor : Nat
deriving DecidableEq

/-- Model of `Viewport` (src unnamed viewport part): Go `int32` fields. -/
structure Viewport where
  X : Int
  Y : Int
  Width : Int
  Height : Int
deriving DecidableEq

/-- Model of `blendFunc.Equals` (src technique.go): `other != nil` and both
factors equal; the possibly-nil receiver argument is the `Option`. -/
def blendFuncEquals (b : BlendFunc) : Option BlendFunc → Bool
  | none => false
  | some o => b.sfactor = o.sfactor ∧ b.dfactor = o.dfactor

/-- Model of `cullFace.Equals` (src technique.go); the struct wraps one mode. -/
def cullFaceEquals (mode : Nat) : Option Nat → Bool
  | none => false
  | some o => mode = o

/-- Model of `depthMask.Equals` (src technique.go); the struct wraps one flag. -/
def depthMaskEquals (flag : Bool) : Option Bool → Bool
  | none => false
  | some o => flag = o

/-- Model of `depthFunc.Equals` (src technique.go); the struct wraps one
comparison function. -/
def depthFuncEquals (xfunc : Nat) : Option Nat → Bool
  | none => false
  | some o => xfunc = o

/-- Model of `Viewport.Equals` (src unnamed viewport part). -/
def viewportEquals (v : Viewport) : Option Viewport → Bool
  | none => false
  | some o => v.X = o.X ∧ v.Y = o.Y ∧ v.Width = o.Width ∧ v.Height = o.Height

/-- Model of `Technique` (src technique.go). The shader and framebuffer pointers
are modeled as `Option Nat` object identities (`none` = Go nil); the
`clearColor` field is carried (float32 bit patterns) but never read by
`setup`. -/
structure Technique where
  enables : List Nat
  shader : Option Nat
  viewport : Option Viewport
  framebuffer : Option Nat
  blendFunc : Option BlendFunc
  cullFace : Option Nat
  depthMask : Option Bool
  depthFunc : Option Nat
  clearColor : Option (Nat × Nat × Nat × Nat)

/-- The render-state cache: the package-level `prev*` variables of src
technique.go. `prevEnables` models the `map[uint32]bool` whose entries
are only ever `true`, i.e. a set. -/
structure CacheState where
  prevBlendFunc : Option BlendFunc
  prevCullFace : Option Nat
  prevDepthMask : Option Bool
  prevDepthFunc : Option Nat
  prevViewport : Option Viewport
  prevShader : Option Nat
  prevFrameBuffer : Option Nat
  prevEnables : Finset Nat
deriving DecidableEq

/-- The framebuffer step of `Technique.setup` (src technique.go): unbind
when the technique has no framebuffer but one is recorded (note the Go
code does not clear `prevFrameBuffer` there), then bind when the
technique's framebuffer differs from the recorded one. -/
def setupFramebuffer (t : Technique) (s : CacheState) : List Call × CacheState :=
  let unbindCalls : List Call :=
    if t.framebuffer = none ∧ s.prevFrameBuffer ≠ none then [Call.bindFramebuffer 0] else []
  match t.framebuffer with
  | some f =>
    if s.prevFrameBuffer = some f then (unbindCalls, s)
    else (unbindCalls ++ [Call.bindFramebuffer f], { s with prevFrameBuffer := some f })
  | none => (unbindCalls, s)

/-- The shader step of `Technique.setup` (src technique.go):
`t.shader.Use()` dereferences the shader pointer, so a technique with a
nil shader panics when the recorded shader differs (`none` result). -/
def setupShader (t : Technique) (s : CacheState) : Option (List Call × CacheState) :=
  if t.shader = s.prevShader then some ([], s)
  else
    match t.shader with
    | none => none
    | some sh => some ([Call.useProgram sh], { s with prevShader := some sh })

/-- The enable loop of `Technique.setup` (src technique.go), iterating
the technique's `enables` slice over the accumulator (calls issued,
`prevEnables`, `staleEnables`): enable-and-record anything not yet
enabled, and drop every requested capability from the stale set. -/
def enableLoop : List Nat → List Call × Finset Nat × Finset Nat → List Call × Finset Nat × Finset Nat
  | [], acc => acc
  | state :: rest, (calls, prev, stale) =>
    if state ∈ prev then enableLoop rest (calls, prev, stale.erase state)
    else enableLoop rest (calls ++ [Call.enable state], insert state prev, stale.erase state)

/-- The capability step of `Technique.setup` (src technique.go): copy
`prevEnables` into `staleEnables`, run the enable loop, then disable and
un-record everything left stale. The Go stale-map iteration order is
unspecified; it is canonicalized by sorting (no proved statement depends
on the order). -/
def setupEnables (t : Technique) (s : CacheState) : List Call × CacheState :=
  let r := enableLoop t.enables ([], s.prevEnables, s.prevEnables)
  let disableCalls := (r.2.2.sort (· ≤ ·)).map Call.disable
  (r.1 ++ disableCalls, { s with prevEnables := r.2.1 \ r.2.2 })

/-- The blend-function update of `Technique.setup` (src technique.go). -/
def setupBlend (t : Technique) (s : CacheState) : List Call × CacheState :=
  match t.blendFunc with
  | some b =>
    if blendFuncEquals b s.prevBlendFunc then ([], s)
    else ([Call.blendFunc b.sfactor b.dfactor], { s with prevBlendFunc := some b })
  | none => ([], s)

/-- The cull-face update of `Technique.setup` (src technique.go). -/
def setupCull (t : Technique) (s : CacheState) : List Call × CacheState :=
  match t.cullFace with
  | some m =>
    if cullFaceEquals m s.prevCullFace then ([], s)
    else ([Call.cullFace m], { s with prevCullFace := some m })
  | none => ([], s)

/-- The depth-mask update of `Technique.setup` (src technique.go). -/
def setupMask (t : Technique) (s : CacheState) : List Call × CacheState :=
  match t.depthMask with
  | some fl =>
    if depthMaskEquals fl s.prevDepthMask then ([], s)
    else ([Call.depthMask fl], { s with prevDepthMask := some fl })
  | none => ([], s)

/-- The depth-function update of `Technique.setup` (src technique.go). -/
def setupDepthFn (t : Technique) (s : CacheState) : List Call × CacheState :=
  match t.depthFunc with
  | some xf =>
    if depthFuncEquals xf s.prevDepthFunc then ([], s)
    else ([Call.depthFunc xf], { s with prevDepthFunc := some xf })
  | none => ([], s)

/-- The fixed-function step of `Technique.setup` (src technique.go):
blend function, cull mode, depth mask, depth function in source order;
each applied and recorded only when present and not `Equals` the
recorded value. -/
def setupFuncs (t : Technique) (s : CacheState) : List Call × CacheState :=
  let pBlend := setupBlend t s
  let pCull := setupCull t pBlend.2
  let pMask := setupMask t pCull.2
  let pFunc := setupDepthFn t pMask.2
  (pBlend.1 ++ pCull.1 ++ pMask.1 ++ pFunc.1, pFunc.2)

/-- The viewport step of `Technique.setup` (src technique.go). -/
def setupViewport (t : Technique) (s : CacheState) : List Call × CacheState :=
  match t.viewport with
  | some v =>
    if viewportEquals v s.prevViewport then ([], s)
    else ([Call.viewport v.X v.Y v.Width v.Height], { s with prevViewport := some v })
  | none => ([], s)

/-- Model of `Technique.setup` (src technique.go): the five steps in source
order. `none` models the nil-shader panic; the calls issued before a
panic are not collected since no proved statement reads them. -/
def setup (t : Technique) (s : CacheState) : Option (List Call × CacheState) :=
  let pFb := setupFramebuffer t s
  match setupShader t pFb.2 with
  | none => none
  | some pSh =>
    let pEn := setupEnables t pSh.2
    let pFn := setupFuncs t pEn.2
    let pVp := setupViewport t pFn.2
    some (pFb.1 ++ pSh.1 ++ pEn.1 ++ pFn.1 ++ pVp.1, pVp.2)

/-- Model of `toString` (src shader.go): converts a device-reported name buffer
to a string, trimming the last byte (the comment in the source says
"trim null terminator"). Renamed to avoid clashing with Lean's
`toString`. -/
def goToString (buff : List Nat) : GoStr := buff.dropLast

/-- One active uniform as the device reports it to the reflection
queries (src shader.go `queryUniform*`): the name buffer written by
`gl.GetActiveUniformName` (the name bytes followed by the null
terminator), the type enum, the declared array length, the parent block
index (−1 when standalone), and the byte offset inside the parent
block. -/
structure GLUniform where
  nameBytes : List Nat
  typ : Nat
  count : Int
  blockIndex : Int
  offset : Int

/-- One active uniform block as the device reports it (src shader.go):
the name buffer (with null terminator) and the data size. -/
structure GLBlock where
  nameBytes : List Nat
  size : Int

/-- Everything the device reports about a linked program during
reflection (src shader.go `queryUniforms`): the active uniforms in
index order, the active blocks in index order, the device-wide uniform
buffer offset alignment, and the binding-location resolver
(`gl.GetUniformLocation` applied to a name). -/
structure GLProgram where
  uniforms : List GLUniform
  blocks : List GLBlock
  alignment : Int
  location : GoStr → Int

/-- Model of `Shader.queryUniforms` (src shader.go): builds the two descriptor
maps. Standalone uniforms (parent block index −1) are keyed by
`uniformNames[index]` (the `toString`-trimmed name) and their `Name`
field slices one more byte off (`name[:len(name)-1]`). Block member
offsets are keyed by `uniformNames[i]`. The `gl.UniformBlockBinding`
side effect of block traversal is not recorded (no claim reads it). -/
def queryUniforms (p : GLProgram) :
    List (GoStr × UniformDescriptor) × List (GoStr × UniformBlockDescriptor) :=
  let names := p.uniforms.map (fun u => goToString u.nameBytes)
  let descriptors :=
    (names.zip p.uniforms).foldl
      (fun m nu =>
        if nu.2.blockIndex = -1 then
          insertD m nu.1
            { Name := nu.1.dropLast, typ := nu.2.typ, Count := nu.2.count,
              Location := p.location nu.1 }
        else m)
      []
  let blockDescriptors :=
    p.blocks.enum.foldl
      (fun m jb =>
        let offsets :=
          ((names.zip p.uniforms).filter (fun nu => nu.2.blockIndex = (jb.1 : Int))).map
            (fun nu => (nu.1, nu.2.offset))
        insertD m (goToString jb.2.nameBytes)
          { Name := goToString jb.2.nameBytes, Index := jb.1, Size := jb.2.size,
            Offsets := offsets, Alignment := p.alignment })
      []
  (descriptors, blockDescriptors)

/-- The capabilities the enable loop newly enables, in order: the
first occurrence of each requested capability not already enabled
(characterizes the `gl.Enable` calls `setup` issues). -/
def newEnables : List Nat → Finset Nat → List Nat
  | [], _ => []
  | state :: rest, prev =>
    if state ∈ prev then newEnables rest prev
    else state :: newEnables rest (insert state prev)

/-- The calls the framebuffer step of `setup` issues, as a function of
the recorded framebuffer. -/
def fbStepCalls (t : Technique) (pfb : Option Nat) : List Call :=
  (if t.framebuffer = none ∧ pfb ≠ none then [Call.bindFramebuffer 0] else []) ++
    (match t.framebuffer with
     | some f => if pfb = some f then [] else [Call.bindFramebuffer f]
     | none => [])

/-- The calls the shader step of `setup` issues (empty also in the
panic case, which issues none before panicking), as a function of the
recorded shader. -/
def shStepCalls (t : Technique) (psh : Option Nat) : List Call :=
  if t.shader = psh then []
  else match t.shader with
    | some sh => [Call.useProgram sh]
    | none => []

/-- The calls the capability step of `setup` issues, as a function of
the recorded capability set. -/
def capStepCalls (t : Technique) (pen : Finset Nat) : List Call :=
  (newEnables t.enables pen).map Call.enable ++
    ((pen \ t.enables.toFinset).sort (· ≤ ·)).map Call.disable

/-- The calls the blend-function update issues. -/
def blendStepCalls (t : Technique) (pb : Option BlendFunc) : List Call :=
  match t.blendFunc with
  | some b => if blendFuncEquals b pb then [] else [Call.blendFunc b.sfactor b.dfactor]
  | none => []

/-- The calls the cull-face update issues. -/
def cullStepCalls (t : Technique) (pc : Option Nat) : List Call :=
  match t.cullFace with
  | some m => if cullFaceEquals m pc then [] else [Call.cullFace m]
  | none => []

/-- The calls the depth-mask update issues. -/
def maskStepCalls (t : Technique) (pm : Option Bool) : List Call :=
  match t.depthMask with
  | some fl => if depthMaskEquals fl pm then [] else [Call.depthMask fl]
  | none => []

/-- The calls the depth-function update issues. -/
def depthFnStepCalls (t : Technique) (pf : Option Nat) : List Call :=
  match t.depthFunc with
  | some xf => if depthFuncEquals xf pf then [] else [Call.depthFunc xf]
  | none => []

/-- The calls the viewport step of `setup` issues, as a function of the
recorded viewport. -/
def vpStepCalls (t : Technique) (pv : Option Viewport) : List Call :=
  match t.viewport with
  | some v => if viewportEquals v pv then [] else [Call.viewport v.X v.Y v.Width v.Height]
  | none => []

/-- All calls a successful `setup` issues, step by step. -/
def setupCalls (t : Technique) (s : CacheState) : List Call :=
  fbStepCalls t s.prevFrameBuffer ++ shStepCalls t s.prevShader ++
    capStepCalls t s.prevEnables ++
    (blendStepCalls t s.prevBlendFunc ++ cullStepCalls t s.prevCullFace ++
      maskStepCalls t s.prevDepthMask ++ depthFnStepCalls t s.prevDepthFunc) ++
    vpStepCalls t s.prevViewport

/-- The cache state a successful `setup` leaves behind. Note that when
the technique has no framebuffer the recorded framebuffer is NOT
cleared, even though an unbind call was issued. -/
def postState (t : Technique) (s : CacheState) : CacheState :=
  { prevFrameBuffer := match t.framebuffer with | some f => some f | none => s.prevFrameBuffer
    prevShader := match t.shader with | some sh => some sh | none => s.prevShader
    prevEnables := t.enables.toFinset
    prevBlendFunc := match t.blendFunc with | some b => some b | none => s.prevBlendFunc
    prevCullFace := match t.cullFace with | some m => some m | none => s.prevCullFace
    prevDepthMask := match t.depthMask with | some fl => some fl | none => s.prevDepthMask
    prevDepthFunc := match t.depthFunc with | some xf => some xf | none => s.prevDepthFunc
    prevViewport := match t.viewport with | some v => some v | none => s.prevViewport }

/-- Calls that bind, draw or unbind a drawable (vertex-array bind /
unbind and the four draw variants). -/
def isDrawableCall : Call → Bool
  | .bindVertexArray _ => true
  | .drawArrays _ _ _ => true
  | .drawElements _ _ _ _ => true
  | .drawArraysInstanced _ _ _ _ => true
  | .drawElementsInstanced _ _ _ _ _ => true
  | _ => false

/-! Concrete inputs used by counterexamples and witnesses. -/

/-- A uniform block descriptor whose size is already an exact multiple
of its alignment (Size = 16, Alignment = 16). -/
def blk16 : UniformBlockDescriptor :=
  { Name := [], Index := 0, Size := 16, Offsets := [], Alignment := 16 }

/-- A technique with every field unset (all Go nil / empty slice). -/
def tNil : Technique :=
  { enables := [], shader := none, viewport := none, framebuffer := none,
    blendFunc := none, cullFace := none, depthMask := none, depthFunc := none,
    clearColor := none }

/-- The zero cache state: nothing recorded. -/
def sEmpty : CacheState :=
  { prevBlendFunc := none, prevCullFace := none, prevDepthMask := none,
    prevDepthFunc := none, prevViewport := none, prevShader := none,
    prevFrameBuffer := none, prevEnables := ∅ }

/-- A cache state still recording a bound framebuffer (identity 1). -/
def sFB : CacheState :=
  { prevBlendFunc := none, prevCullFace := none, prevDepthMask := none,
    prevDepthFunc := none, prevViewport := none, prevShader := none,
    prevFrameBuffer := some 1, prevEnables := ∅ }

/-- A technique requesting capabilities {2, 3}. -/
def t5 : Technique :=
  { enables := [2, 3], shader := none, viewport := none, framebuffer := none,
    blendFunc := none, cullFace := none, depthMask := none, depthFunc := none,
    clearColor := none }

/-- A cache state with capabilities {1, 2} enabled. -/
def s5 : CacheState :=
  { prevBlendFunc := none, prevCullFace := none, prevDepthMask := none,
    prevDepthFunc := none, prevViewport := none, prevShader := none,
    prevFrameBuffer := none, prevEnables := {1, 2} }

/-- A command with no drawable and nothing else set. -/
def cmdNil : Command := { uniforms := [], textures := [], renderable := none }

/-- A command with one texture binding and one uniform but no
drawable. -/
def cmd3 : Command :=
  { uniforms := [([117], UniformValue.float32V 3)], textures := [(0, { id := 7 })],
    renderable := none }

/-- A descriptor map declaring the single float uniform `u` (byte 117)
at location 2. -/
def ds3 : List (GoStr × UniformDescriptor) :=
  [([117], { Name := [117], typ := glFLOAT, Count := 1, Location := 2 })]

/-- A reflected program with one standalone float uniform named
"color" (bytes 99,111,108,111,114 followed by the null terminator) and
one block "Blk" containing the uniform "data". -/
def prog4 : GLProgram :=
  { uniforms :=
      [{ nameBytes := [99, 111, 108, 111, 114, 0], typ := glFLOAT, count := 1,
         blockIndex := -1, offset := 0 },
       { nameBytes := [100, 97, 116, 97, 0], typ := glFLOAT, count := 1,
         blockIndex := 0, offset := 16 }],
    blocks := [{ nameBytes := [66, 108, 107, 0], size := 48 }],
    alignment := 256,
    location := fun _ => 7 }

/-- A sampler-2D uniform descriptor at location 4. -/
def d7 : UniformDescriptor := { Name := [115], typ := glSAMPLER_2D, Count := 1, Location := 4 }

/-- A descriptor map declaring one sampler-2D uniform `s` (byte 115) at
location 4. -/
def ds7 : List (GoStr × UniformDescriptor) := [([115], d7)]

/-- A scalar float uniform descriptor at location 2. -/
def d8 : UniformDescriptor := { Name := [102], typ := glFLOAT, Count := 1, Location := 2 }

/-- A descriptor map declaring one scalar float uniform `f` (byte 102)
at location 2. -/
def ds8 : List (GoStr × UniformDescriptor) := [([102], d8)]

/-- An empty framebuffer with device id 3. -/
def fb9 : FrameBuffer := { id := 3, textures := [] }

/-- A texture with device id 5. -/
def tex9 : Texture := { id := 5 }

/-- A uniform descriptor whose type enum 35674 (FLOAT_MAT2) is none of
the handled cases. -/
def d10 : UniformDescriptor := { Name := [109], typ := 35674, Count := 1, Location := 0 }

/-- A descriptor map declaring one uniform `m` (byte 109) whose type
enum 35674 (FLOAT_MAT2) is none of the handled cases. -/
def ds10 : List (GoStr × UniformDescriptor) := [([109], d10)]

/-- The descriptor reflection builds for the standalone uniform
"color" of `prog4`: the map key keeps the five name bytes, the `Name`
field loses one more byte. -/
def d4c : UniformDescriptor :=
  { Name := [99, 111, 108, 111], typ := glFLOAT, Count := 1, Location := 7 }

/-- The block descriptor reflection builds for block "Blk" of `prog4`:
the member offset is keyed by the null-stripped name "data". -/
def b4c : UniformBlockDescriptor :=
  { Name := [66, 108, 107], Index := 0, Size := 48,
    Offsets := [([100, 97, 116, 97], 16)], Alignment := 256 }

/-! Helper lemmas. -/

/-- Membership in a concatenated call list comes from some element. -/
theorem mem_concatCalls {α : Type} (f : α → List Call) :
    ∀ (l : List α) (c : Call), c ∈ concatCalls f l → ∃ x ∈ l, c ∈ f x := by
  intro l
  induction l with
  | nil => intro c hc; simp [concatCalls] at hc
  | cons x rest ih =>
    intro c hc
    rcases List.mem_append.mp hc with h1 | h2
    · exact ⟨x, List.mem_cons_self x rest, h1⟩
    · obtain ⟨y, hy, hm⟩ := ih c h2
      exact ⟨y, List.mem_cons_of_mem x hy, hm⟩

/-- Looking up the key just inserted finds the inserted value. -/
theorem lookupD_insertD_self {κ α : Type} [DecidableEq κ] :
    ∀ (m : List (κ × α)) (k : κ) (v : α), lookupD (insertD m k v) k = some v := by
  intro m
  induction m with
  | nil => intro k v; simp [insertD, lookupD]
  | cons kv rest ih =>
    intro k v
    by_cases h : kv.1 = k
    · simpa [insertD, h] using ih k v
    · simpa [insertD, lookupD, h] using ih k v

/-- The calls of `SetUniform1i` are never drawable calls. -/
theorem setUniform1i_not_drawable (l : Int) (v : UniformValue) :
    ∀ c ∈ (SetUniform1i l v).1, isDrawableCall c = false := by
  intro c hc; cases v <;> simp_all [SetUniform1i, isDrawableCall]

/-- The calls of `SetUniform1ui` are never drawable calls. -/
theorem setUniform1ui_not_drawable (l : Int) (v : UniformValue) :
    ∀ c ∈ (SetUniform1ui l v).1, isDrawableCall c = false := by
  intro c hc; cases v <;> simp_all [SetUniform1ui, isDrawableCall]

/-- The calls of `SetUniform1f` are never drawable calls. -/
theorem setUniform1f_not_drawable (l : Int) (v : UniformValue) :
    ∀ c ∈ (SetUniform1f l v).1, isDrawableCall c = false := by
  intro c hc; cases v <;> simp_all [SetUniform1f, isDrawableCall]

/-- The calls of `SetUniform1iv` are never drawable calls. -/
theorem setUniform1iv_not_drawable (l k : Int) (v : UniformValue) :
    ∀ c ∈ (SetUniform1iv l k v).1, isDrawableCall c = false := by
  intro c hc; cases v <;> simp_all [SetUniform1iv, isDrawableCall]

/-- The calls of `SetUniform1uiv` are never drawable calls. -/
theorem setUniform1uiv_not_drawable (l k : Int) (v : UniformValue) :
    ∀ c ∈ (SetUniform1uiv l k v).1, isDrawableCall c = false := by
  intro c hc; cases v <;> simp_all [SetUniform1uiv, isDrawableCall]

/-- The calls of `SetUniform1fv` are never drawable calls. -/
theorem setUniform1fv_not_drawable (l k : Int) (v : UniformValue) :
    ∀ c ∈ (SetUniform1fv l k v).1, isDrawableCall c = false := by
  intro c hc; cases v <;> simp_all [SetUniform1fv, isDrawableCall]

/-- The calls of `SetUniform2fv` are never drawable calls. -/
theorem setUniform2fv_not_drawable (l k : Int) (v : UniformValue) :
    ∀ c ∈ (SetUniform2fv l k v).1, isDrawableCall c = false := by
  intro c hc; cases v <;> simp_all [SetUniform2fv, isDrawableCall]

/-- The calls of `SetUniform3fv` are never drawable calls. -/
theorem setUniform3fv_not_drawable (l k : Int) (v : UniformValue) :
    ∀ c ∈ (SetUniform3fv l k v).1, isDrawableCall c = false := by
  intro c hc; cases v <;> simp_all [SetUniform3fv, isDrawableCall]

/-- The calls of `SetUniform4fv` are never drawable calls. -/
theorem setUniform4fv_not_drawable (l k : Int) (v : UniformValue) :
    ∀ c ∈ (SetUniform4fv l k v).1, isDrawableCall c = false := by
  intro c hc; cases v <;> simp_all [SetUniform4fv, isDrawableCall]

/-- The calls of `SetUniformMatrix3fv` are never drawable calls. -/
theorem setUniformMatrix3fv_not_drawable (l k : Int) (v : UniformValue) :
    ∀ c ∈ (SetUniformMatrix3fv l k v).1, isDrawableCall c = false := by
  intro c hc; cases v <;> simp_all [SetUniformMatrix3fv, isDrawableCall]

/-- The calls of `SetUniformMatrix4fv` are never drawable calls. -/
theorem setUniformMatrix4fv_not_drawable (l k : Int) (v : UniformValue) :
    ∀ c ∈ (SetUniformMatrix4fv l k v).1, isDrawableCall c = false := by
  intro c hc; cases v <;> simp_all [SetUniformMatrix4fv, isDrawableCall]

/-- Every uniform-binder call is a uniform-set call, never a drawable
bind/draw/unbind call. -/
theorem setUniform_calls_not_drawable (ds : List (GoStr × UniformDescriptor)) (n : GoStr)
    (v : UniformValue) : ∀ c ∈ (SetUniform ds n v).1, isDrawableCall c = false := by
  intro c hc
  unfold SetUniform at hc
  rcases h : lookupD ds n with _ | d <;> rw [h] at hc
  · simp at hc
  · repeat' split at hc
    all_goals first
      | exact setUniform1i_not_drawable _ _ _ hc
      | exact setUniform1ui_not_drawable _ _ _ hc
      | exact setUniform1f_not_drawable _ _ _ hc
      | exact setUniform1iv_not_drawable _ _ _ _ hc
      | exact setUniform1uiv_not_drawable _ _ _ _ hc
      | exact setUniform1fv_not_drawable _ _ _ _ hc
      | exact setUniform2fv_not_drawable _ _ _ _ hc
      | exact setUniform3fv_not_drawable _ _ _ _ hc
      | exact setUniform4fv_not_drawable _ _ _ _ hc
      | exact setUniformMatrix3fv_not_drawable _ _ _ _ hc
      | exact setUniformMatrix4fv_not_drawable _ _ _ _ hc
      | simp at hc

/-! Claim theorems. -/

/-- C1: the claim says `AlignedSize` returns the smallest multiple of
`Alignment` ≥ `Size`, equal to `Size` when `Size` is already an exact
multiple. The code computes `Size + Alignment - Size % Alignment`,
which at Size = 16, Alignment = 16 yields 32, not 16: the code
over-pads every exactly-aligned size by one full alignment unit. -/
theorem alignedSize_overpads_at_exact_multiple :
    blk16.Size = 16 ∧ blk16.Alignment = 16 ∧
      blk16.AlignedSize = 32 ∧ blk16.AlignedSize ≠ blk16.Size := by
  decide

/-- C6: a name absent from the descriptor map makes `SetUniform` fail
with the unrecognized-uniform error, issuing zero device calls. -/
theorem setUniform_unknown_name (ds : List (GoStr × UniformDescriptor)) (n : GoStr)
    (v : UniformValue) (h : lookupD ds n = none) :
    SetUniform ds n v = ([], some (.unrecognized n)) := by
  unfold SetUniform
  rw [h]

/-- C6 witness: the unknown-name rejection at a concrete input. -/
theorem setUniform_unknown_name_witness :
    SetUniform [] [100] UniformValue.otherV = ([], some (.unrecognized [100])) :=
  setUniform_unknown_name [] [100] UniformValue.otherV rfl

/-- C3 counterexample: the claim says executing a Command whose
drawable was never set completes without error as a silent no-op. At
the concrete drawable-less command `cmdNil`, `Execute` does not
complete: the Go code calls `c.renderable.Bind()` without a nil check
and panics on the nil-pointer dereference (completion flag `false`). -/
theorem execute_nil_renderable_cex :
    Command.Execute cmdNil [] = ([], false) ∧ false ≠ true := by
  decide

/-- C3 (amended): executing a Command whose drawable was never set
panics (does not complete) instead of silently no-oping; no drawable
bind/draw/unbind device call is issued — the texture-bind and
uniform-set calls made before the panic are the only calls in the
trace. -/
theorem execute_nil_renderable_no_draw (c : Command)
    (ds : List (GoStr × UniformDescriptor)) (h : c.renderable = none) :
    (Command.Execute c ds).2 = false ∧
      ∀ call ∈ (Command.Execute c ds).1, isDrawableCall call = false := by
  unfold Command.Execute
  rw [h]
  refine ⟨rfl, ?_⟩
  intro call hcall
  simp only at hcall
  rcases List.mem_append.mp hcall with h1 | h2
  · obtain ⟨x, _, hm⟩ := mem_concatCalls _ _ _ h1
    simp [Texture.BindCalls] at hm
    rcases hm with rfl | rfl <;> rfl
  · obtain ⟨x, _, hm⟩ := mem_concatCalls _ _ _ h2
    exact setUniform_calls_not_drawable ds x.1 x.2 call hm

/-- C3 witness: the amended no-draw property at a concrete command with
one texture and one uniform and no drawable. -/
theorem execute_nil_renderable_no_draw_witness :
    (Command.Execute cmd3 ds3).2 = false ∧
      isDrawableCall (Call.activeTexture 0) = false :=
  ⟨(execute_nil_renderable_no_draw cmd3 ds3 rfl).1,
   (execute_nil_renderable_no_draw cmd3 ds3 rfl).2 (Call.activeTexture 0) (by decide)⟩

/-- Unfolding equation for `SetUniform` when the name is found. -/
theorem SetUniform_some (ds : List (GoStr × UniformDescriptor)) (n : GoStr)
    (v : UniformValue) (d : UniformDescriptor) (h : lookupD ds n = some d) :
    SetUniform ds n v =
      (if d.typ = glSAMPLER_2D then SetUniform1i d.Location v
       else if d.typ = glSAMPLER_CUBE then SetUniform1i d.Location v
       else if d.typ = glINT then
         if 1 < d.Count then SetUniform1iv d.Location d.Count v
         else SetUniform1i d.Location v
       else if d.typ = glUNSIGNED_INT then
         if 1 < d.Count then SetUniform1uiv d.Location d.Count v
         else SetUniform1ui d.Location v
       else if d.typ = glFLOAT then
         if 1 < d.Count then SetUniform1fv d.Location d.Count v
         else SetUniform1f d.Location v
       else if d.typ = glFLOAT_VEC2 then SetUniform2fv d.Location d.Count v
       else if d.typ = glFLOAT_VEC3 then SetUniform3fv d.Location d.Count v
       else if d.typ = glFLOAT_VEC4 then SetUniform4fv d.Location d.Count v
       else if d.typ = glFLOAT_MAT3 then SetUniformMatrix3fv d.Location d.Count v
       else if d.typ = glFLOAT_MAT4 then SetUniformMatrix4fv d.Location d.Count v
       else ([], none)) := by
  unfold SetUniform
  rw [h]

/-- On every handled descriptor type, a successful `SetUniform` issues
exactly one device call. -/
theorem setUniform_success_one_call (ds : List (GoStr × UniformDescriptor)) (n : GoStr)
    (v : UniformValue) (d : UniformDescriptor) (h : lookupD ds n = some d)
    (hh : handledType d.typ = true) (hs : (SetUniform ds n v).2 = none) :
    (SetUniform ds n v).1.length = 1 := by
  rw [SetUniform_some ds n v d h] at hs ⊢
  by_cases h1 : d.typ = glSAMPLER_2D
  · rw [if_pos h1] at hs ⊢
    cases v <;> simp_all [SetUniform1i]
  rw [if_neg h1] at hs ⊢
  by_cases h2 : d.typ = glSAMPLER_CUBE
  · rw [if_pos h2] at hs ⊢
    cases v <;> simp_all [SetUniform1i]
  rw [if_neg h2] at hs ⊢
  by_cases h3 : d.typ = glINT
  · rw [if_pos h3] at hs ⊢
    by_cases hc : 1 < d.Count
    · rw [if_pos hc] at hs ⊢
      cases v <;> simp_all [SetUniform1iv]
    · rw [if_neg hc] at hs ⊢
      cases v <;> simp_all [SetUniform1i]
  rw [if_neg h3] at hs ⊢
  by_cases h4 : d.typ = glUNSIGNED_INT
  · rw [if_pos h4] at hs ⊢
    by_cases hc : 1 < d.Count
    · rw [if_pos hc] at hs ⊢
      cases v <;> simp_all [SetUniform1uiv]
    · rw [if_neg hc] at hs ⊢
      cases v <;> simp_all [SetUniform1ui]
  rw [if_neg h4] at hs ⊢
  by_cases h5 : d.typ = glFLOAT
  · rw [if_pos h5] at hs ⊢
    by_cases hc : 1 < d.Count
    · rw [if_pos hc] at hs ⊢
      cases v <;> simp_all [SetUniform1fv]
    · rw [if_neg hc] at hs ⊢
      cases v <;> simp_all [SetUniform1f]
  rw [if_neg h5] at hs ⊢
  by_cases h6 : d.typ = glFLOAT_VEC2
  · rw [if_pos h6] at hs ⊢
    cases v <;> simp_all [SetUniform2fv]
  rw [if_neg h6] at hs ⊢
  by_cases h7 : d.typ = glFLOAT_VEC3
  · rw [if_pos h7] at hs ⊢
    cases v <;> simp_all [SetUniform3fv]
  rw [if_neg h7] at hs ⊢
  by_cases h8 : d.typ = glFLOAT_VEC4
  · rw [if_pos h8] at hs ⊢
    cases v <;> simp_all [SetUniform4fv]
  rw [if_neg h8] at hs ⊢
  by_cases h9 : d.typ = glFLOAT_MAT3
  · rw [if_pos h9] at hs ⊢
    cases v <;> simp_all [SetUniformMatrix3fv]
  rw [if_neg h9] at hs ⊢
  by_cases h10 : d.typ = glFLOAT_MAT4
  · rw [if_pos h10] at hs ⊢
    cases v <;> simp_all [SetUniformMatrix4fv]
  exfalso
  unfold handledType at hh
  simp only [decide_eq_true_eq] at hh
  tauto

/-- C7: for every known uniform name, the dispatch is resolved by the
descriptor type — samplers to the scalar-int call, INT/UNSIGNED_INT/
FLOAT to the array call iff Count > 1 and the scalar call otherwise,
vectors and matrices always to the array call — and on success exactly
one device call is issued. -/
theorem setUniform_dispatch (ds : List (GoStr × UniformDescriptor)) (n : GoStr)
    (v : UniformValue) (d : UniformDescriptor) (h : lookupD ds n = some d) :
    ((d.typ = glSAMPLER_2D ∨ d.typ = glSAMPLER_CUBE) →
        SetUniform ds n v = SetUniform1i d.Location v) ∧
    (d.typ = glINT → SetUniform ds n v =
        if 1 < d.Count then SetUniform1iv d.Location d.Count v
        else SetUniform1i d.Location v) ∧
    (d.typ = glUNSIGNED_INT → SetUniform ds n v =
        if 1 < d.Count then SetUniform1uiv d.Location d.Count v
        else SetUniform1ui d.Location v) ∧
    (d.typ = glFLOAT → SetUniform ds n v =
        if 1 < d.Count then SetUniform1fv d.Location d.Count v
        else SetUniform1f d.Location v) ∧
    (d.typ = glFLOAT_VEC2 → SetUniform ds n v = SetUniform2fv d.Location d.Count v) ∧
    (d.typ = glFLOAT_VEC3 → SetUniform ds n v = SetUniform3fv d.Location d.Count v) ∧
    (d.typ = glFLOAT_VEC4 → SetUniform ds n v = SetUniform4fv d.Location d.Count v) ∧
    (d.typ = glFLOAT_MAT3 → SetUniform ds n v = SetUniformMatrix3fv d.Location d.Count v) ∧
    (d.typ = glFLOAT_MAT4 → SetUniform ds n v = SetUniformMatrix4fv d.Location d.Count v) ∧
    (handledType d.typ = true → (SetUniform ds n v).2 = none →
        (SetUniform ds n v).1.length = 1) := by
  refine ⟨?_, ?_, ?_, ?_, ?_, ?_, ?_, ?_, ?_,
    fun hh hs => setUniform_success_one_call ds n v d h hh hs⟩ <;>
    rw [SetUniform_some ds n v d h]
  · rintro (ht | ht) <;>
      simp [ht, glSAMPLER_2D, glSAMPLER_CUBE, glINT, glUNSIGNED_INT, glFLOAT, glFLOAT_VEC2,
        glFLOAT_VEC3, glFLOAT_VEC4, glFLOAT_MAT3, glFLOAT_MAT4]
  all_goals
    intro ht
    simp [ht, glSAMPLER_2D, glSAMPLER_CUBE, glINT, glUNSIGNED_INT, glFLOAT, glFLOAT_VEC2,
      glFLOAT_VEC3, glFLOAT_VEC4, glFLOAT_MAT3, glFLOAT_MAT4]

/-- C7 witness: a sampler-2D uniform dispatches to the scalar-int
call. -/
theorem setUniform_dispatch_witness :
    SetUniform ds7 [115] (UniformValue.int32V 9) =
      SetUniform1i d7.Location (UniformValue.int32V 9) :=
  (setUniform_dispatch ds7 [115] (UniformValue.int32V 9) d7 (by decide)).1 (Or.inl rfl)

/-- C8: a value whose runtime representation does not match the shape
expected by the resolved dispatch makes `SetUniform` fail with the
type-mismatch error for that shape, issuing zero device calls. -/
theorem setUniform_type_mismatch (ds : List (GoStr × UniformDescriptor)) (n : GoStr)
    (v : UniformValue) (d : UniformDescriptor) (τ : GoType) (h : lookupD ds n = some d)
    (hτ : expectedGoType d = some τ) (hv : valueHasType τ v = false) :
    SetUniform ds n v = ([], some (.typeMismatch τ)) := by
  rw [SetUniform_some ds n v d h]
  unfold expectedGoType at hτ
  by_cases h1 : d.typ = glSAMPLER_2D
  · rw [if_pos h1] at hτ ⊢
    injection hτ with e
    subst e
    cases v <;> simp_all [SetUniform1i, valueHasType]
  rw [if_neg h1] at hτ ⊢
  by_cases h2 : d.typ = glSAMPLER_CUBE
  · rw [if_pos h2] at hτ ⊢
    injection hτ with e
    subst e
    cases v <;> simp_all [SetUniform1i, valueHasType]
  rw [if_neg h2] at hτ ⊢
  by_cases h3 : d.typ = glINT
  · rw [if_pos h3] at hτ ⊢
    by_cases hcnt : 1 < d.Count
    · rw [if_pos hcnt] at hτ ⊢
      injection hτ with e
      subst e
      cases v <;> simp_all [SetUniform1iv, valueHasType]
    · rw [if_neg hcnt] at hτ ⊢
      injection hτ with e
      subst e
      cases v <;> simp_all [SetUniform1i, valueHasType]
  rw [if_neg h3] at hτ ⊢
  by_cases h4 : d.typ = glUNSIGNED_INT
  · rw [if_pos h4] at hτ ⊢
    by_cases hcnt : 1 < d.Count
    · rw [if_pos hcnt] at hτ ⊢
      injection hτ with e
      subst e
      cases v <;> simp_all [SetUniform1uiv, valueHasType]
    · rw [if_neg hcnt] at hτ ⊢
      injection hτ with e
      subst e
      cases v <;> simp_all [SetUniform1ui, valueHasType]
  rw [if_neg h4] at hτ ⊢
  by_cases h5 : d.typ = glFLOAT
  · rw [if_pos h5] at hτ ⊢
    by_cases hcnt : 1 < d.Count
    · rw [if_pos hcnt] at hτ ⊢
      injection hτ with e
      subst e
      cases v <;> simp_all [SetUniform1fv, valueHasType]
    · rw [if_neg hcnt] at hτ ⊢
      injection hτ with e
      subst e
      cases v <;> simp_all [SetUniform1f, valueHasType]
  rw [if_neg h5] at hτ ⊢
  by_cases h6 : d.typ = glFLOAT_VEC2
  · rw [if_pos h6] at hτ ⊢
    injection hτ with e
    subst e
    cases v <;> simp_all [SetUniform2fv, valueHasType]
  rw [if_neg h6] at hτ ⊢
  by_cases h7 : d.typ = glFLOAT_VEC3
  · rw [if_pos h7] at hτ ⊢
    injection hτ with e
    subst e
    cases v <;> simp_all [SetUniform3fv, valueHasType]
  rw [if_neg h7] at hτ ⊢
  by_cases h8 : d.typ = glFLOAT_VEC4
  · rw [if_pos h8] at hτ ⊢
    injection hτ with e
    subst e
    cases v <;> simp_all [SetUniform4fv, valueHasType]
  rw [if_neg h8] at hτ ⊢
  by_cases h9 : d.typ = glFLOAT_MAT3
  · rw [if_pos h9] at hτ ⊢
    injection hτ with e
    subst e
    cases v <;> simp_all [SetUniformMatrix3fv, valueHasType]
  rw [if_neg h9] at hτ ⊢
  by_cases h10 : d.typ = glFLOAT_MAT4
  · rw [if_pos h10] at hτ ⊢
    injection hτ with e
    subst e
    cases v <;> simp_all [SetUniformMatrix4fv, valueHasType]
  rw [if_neg h10] at hτ
  exact absurd hτ (by simp)

/-- C8 witness: a non-float value for a scalar float uniform is
rejected with zero calls. -/
theorem setUniform_type_mismatch_witness :
    SetUniform ds8 [102] UniformValue.otherV =
      ([], some (.typeMismatch GoType.tFloat32)) :=
  setUniform_type_mismatch ds8 [102] UniformValue.otherV d8 GoType.tFloat32
    (by decide) (by decide) (by decide)

/-- C10: a known name whose descriptor type is none of the handled
cases makes `SetUniform` return success (`nil` error in Go) while
issuing zero device calls: unsupported uniform types are silently
ignored. -/
theorem setUniform_unhandled_silent (ds : List (GoStr × UniformDescriptor)) (n : GoStr)
    (v : UniformValue) (d : UniformDescriptor) (h : lookupD ds n = some d)
    (hu : handledType d.typ = false) :
    SetUniform ds n v = ([], none) := by
  rw [SetUniform_some ds n v d h]
  unfold handledType at hu
  simp only [decide_eq_false_iff_not] at hu
  push_neg at hu
  obtain ⟨h1, h2, h3, h4, h5, h6, h7, h8, h9, h10⟩ := hu
  simp [h1, h2, h3, h4, h5, h6, h7, h8, h9, h10]

/-- C10 witness: a FLOAT_MAT2 uniform (type enum 35674, unhandled) is
silently ignored at a concrete input. -/
theorem setUniform_unhandled_silent_witness :
    SetUniform ds10 [109] UniformValue.otherV = ([], none) :=
  setUniform_unhandled_silent ds10 [109] UniformValue.otherV d10 (by decide) (by decide)

/-- C9: `AttachTexture` fails with the typed duplicate-attachment error
when a texture is already recorded at the attachment id; it fails with
the typed error carrying the specific completeness cause when the
device does not report completeness; in every failure case the
attachment map is unchanged, and the texture is recorded exactly when
no error occurred. -/
theorem attachTexture_spec (f : FrameBuffer) (a : Nat) (tex : Texture) (st : Nat) :
    (lookupD f.textures a ≠ none →
        f.AttachTexture a tex st = (f, [], some (.alreadyAttached a))) ∧
    (lookupD f.textures a = none → st ≠ glFRAMEBUFFER_COMPLETE →
        (f.AttachTexture a tex st).2.2 = checkAttachmentError st ∧
          (f.AttachTexture a tex st).1 = f) ∧
    (st ≠ glFRAMEBUFFER_COMPLETE → checkAttachmentError st ≠ none) ∧
    ((f.AttachTexture a tex st).2.2 = none →
        lookupD (f.AttachTexture a tex st).1.textures a = some tex) ∧
    ((f.AttachTexture a tex st).2.2 ≠ none → (f.AttachTexture a tex st).1 = f) := by
  have hchk : st ≠ glFRAMEBUFFER_COMPLETE → checkAttachmentError st ≠ none := by
    intro hne
    unfold checkAttachmentError
    split_ifs <;> simp_all
  refine ⟨?_, ?_, hchk, ?_, ?_⟩
  · intro hne
    rcases hl : lookupD f.textures a with _ | t0
    · exact absurd hl hne
    · simp only [FrameBuffer.AttachTexture, hl]
  · intro hl hne
    rcases hc : checkAttachmentError st with _ | e
    · exact absurd hc (hchk hne)
    · simp only [FrameBuffer.AttachTexture, hl, hc]
      trivial
  · intro hs
    rcases hl : lookupD f.textures a with _ | t0
    · rcases hc : checkAttachmentError st with _ | e
      · simp only [FrameBuffer.AttachTexture, hl, hc]
        exact lookupD_insertD_self f.textures a tex
      · simp only [FrameBuffer.AttachTexture, hl, hc] at hs
        simp at hs
    · simp only [FrameBuffer.AttachTexture, hl] at hs
      simp at hs
  · intro hs
    rcases hl : lookupD f.textures a with _ | t0
    · rcases hc : checkAttachmentError st with _ | e
      · simp only [FrameBuffer.AttachTexture, hl, hc] at hs
        simp at hs
      · simp only [FrameBuffer.AttachTexture, hl, hc]
    · simp only [FrameBuffer.AttachTexture, hl]

/-- C9 witness: on an empty framebuffer a successful attach records the
texture; an incomplete status yields the typed error for that status. -/
theorem attachTexture_spec_witness :
    lookupD (fb9.AttachTexture 0 tex9 glFRAMEBUFFER_COMPLETE).1.textures 0 = some tex9 ∧
      (fb9.AttachTexture 1 tex9 glFRAMEBUFFER_UNSUPPORTED).2.2 =
        checkAttachmentError glFRAMEBUFFER_UNSUPPORTED :=
  ⟨(attachTexture_spec fb9 0 tex9 glFRAMEBUFFER_COMPLETE).2.2.2.1 (by decide),
   ((attachTexture_spec fb9 1 tex9 glFRAMEBUFFER_UNSUPPORTED).2.1 (by decide)
      (by decide)).1⟩

/-- Removing the stale part of a copied set from the grown set leaves
exactly the requested set. -/
theorem union_sdiff_of_copy (a b : Finset Nat) : (a ∪ b) \ (a \ b) = b := by
  ext x
  simp only [Finset.mem_sdiff, Finset.mem_union]
  tauto

/-- Subtracting an inserted element is erasing it first. -/
theorem sdiff_insert_erase (stale : Finset Nat) (st : Nat) (T : Finset Nat) :
    stale \ insert st T = stale.erase st \ T := by
  ext x
  simp only [Finset.mem_sdiff, Finset.mem_insert, Finset.mem_erase]
  tauto

/-- A true `blendFunc.Equals` pins the recorded value. -/
theorem blendFuncEquals_eq {b : BlendFunc} {o : Option BlendFunc}
    (h : blendFuncEquals b o = true) : o = some b := by
  rcases o with _ | ob
  · simp [blendFuncEquals] at h
  · simp only [blendFuncEquals, decide_eq_true_eq] at h
    obtain ⟨h1, h2⟩ := h
    cases b
    cases ob
    simp_all

/-- A true `cullFace.Equals` pins the recorded value. -/
theorem cullFaceEquals_eq {m : Nat} {o : Option Nat} (h : cullFaceEquals m o = true) :
    o = some m := by
  rcases o with _ | om <;> simp_all [cullFaceEquals]

/-- A true `depthMask.Equals` pins the recorded value. -/
theorem depthMaskEquals_eq {fl : Bool} {o : Option Bool} (h : depthMaskEquals fl o = true) :
    o = some fl := by
  rcases o with _ | ofl <;> simp_all [depthMaskEquals]

/-- A true `depthFunc.Equals` pins the recorded value. -/
theorem depthFuncEquals_eq {xf : Nat} {o : Option Nat} (h : depthFuncEquals xf o = true) :
    o = some xf := by
  rcases o with _ | oxf <;> simp_all [depthFuncEquals]

/-- A true `Viewport.Equals` pins the recorded value. -/
theorem viewportEquals_eq {v : Viewport} {o : Option Viewport}
    (h : viewportEquals v o = true) : o = some v := by
  rcases o with _ | ov
  · simp [viewportEquals] at h
  · simp only [viewportEquals, decide_eq_true_eq] at h
    obtain ⟨h1, h2, h3, h4⟩ := h
    cases v
    cases ov
    simp_all

/-- Characterization of the enable loop: it appends one `gl.Enable` per
newly enabled capability, grows `prevEnables` by the requested set, and
shrinks `staleEnables` by the requested set. -/
theorem enableLoop_spec :
    ∀ (en : List Nat) (calls : List Call) (prev stale : Finset Nat),
      enableLoop en (calls, prev, stale) =
        (calls ++ (newEnables en prev).map Call.enable, prev ∪ en.toFinset,
          stale \ en.toFinset) := by
  intro en
  induction en with
  | nil =>
    intro calls prev stale
    simp [enableLoop, newEnables]
  | cons st rest ih =>
    intro calls prev stale
    by_cases hst : st ∈ prev
    · rw [enableLoop, if_pos hst, ih, newEnables, if_pos hst]
      have h2 : prev ∪ (st :: rest).toFinset = prev ∪ rest.toFinset := by
        rw [List.toFinset_cons, Finset.union_insert, Finset.insert_eq_self]
        exact Finset.mem_union_left _ hst
      have h3 : stale \ (st :: rest).toFinset = stale.erase st \ rest.toFinset := by
        rw [List.toFinset_cons]
        exact sdiff_insert_erase stale st rest.toFinset
      rw [h2, h3]
    · rw [enableLoop, if_neg hst, ih, newEnables, if_neg hst]
      have h2 : prev ∪ (st :: rest).toFinset = insert st prev ∪ rest.toFinset := by
        rw [List.toFinset_cons, Finset.union_insert, Finset.insert_union]
      have h3 : stale \ (st :: rest).toFinset = stale.erase st \ rest.toFinset := by
        rw [List.toFinset_cons]
        exact sdiff_insert_erase stale st rest.toFinset
      rw [h2, h3]
      simp [Prod.mk.injEq]

/-- A capability is newly enabled iff it is requested and not already
enabled. -/
theorem mem_newEnables :
    ∀ (en : List Nat) (prev : Finset Nat) (x : Nat),
      x ∈ newEnables en prev ↔ x ∈ en ∧ x ∉ prev := by
  intro en
  induction en with
  | nil => intro prev x; simp [newEnables]
  | cons st rest ih =>
    intro prev x
    by_cases hst : st ∈ prev
    · rw [newEnables, if_pos hst, ih]
      simp only [List.mem_cons]
      constructor
      · rintro ⟨hr, hp⟩
        exact ⟨Or.inr hr, hp⟩
      · rintro ⟨hor, hp⟩
        rcases hor with rfl | hr
        · exact absurd hst hp
        · exact ⟨hr, hp⟩
    · rw [newEnables, if_neg hst]
      simp only [List.mem_cons, ih, Finset.mem_insert]
      constructor
      · rintro (rfl | ⟨hr, hp⟩)
        · exact ⟨Or.inl rfl, hst⟩
        · push_neg at hp
          exact ⟨Or.inr hr, hp.2⟩
      · rintro ⟨hor, hp⟩
        rcases hor with rfl | hr
        · exact Or.inl rfl
        · by_cases hxs : x = st
          · exact Or.inl hxs
          · exact Or.inr ⟨hr, by simp [hxs, hp]⟩

/-- When every requested capability is already enabled, the enable loop
issues nothing. -/
theorem newEnables_of_subset :
    ∀ (en : List Nat) (prev : Finset Nat), (∀ x ∈ en, x ∈ prev) → newEnables en prev = [] := by
  intro en
  induction en with
  | nil => intro prev _; rfl
  | cons st rest ih =>
    intro prev h
    rw [newEnables, if_pos (h st (List.mem_cons_self st rest))]
    exact ih prev (fun x hx => h x (List.mem_cons_of_mem st hx))

/-- The capability step issues `capStepCalls` and records exactly the
requested capability set. -/
theorem setupEnables_eq (t : Technique) (s : CacheState) :
    setupEnables t s =
      (capStepCalls t s.prevEnables, { s with prevEnables := t.enables.toFinset }) := by
  unfold setupEnables capStepCalls
  rw [enableLoop_spec]
  simp [union_sdiff_of_copy]

/-- The framebuffer step issues `fbStepCalls` and records the
technique's framebuffer when present (never clearing it when absent). -/
theorem setupFramebuffer_eq (t : Technique) (s : CacheState) :
    setupFramebuffer t s =
      (fbStepCalls t s.prevFrameBuffer,
        { s with prevFrameBuffer :=
            match t.framebuffer with | some f => some f | none => s.prevFrameBuffer }) := by
  obtain ⟨pb, pc, pm, pf, pv, ps, pfb, pe⟩ := s
  rcases ht : t.framebuffer with _ | f
  · simp [setupFramebuffer, fbStepCalls, ht]
  · by_cases hp : pfb = some f
    · simp [setupFramebuffer, fbStepCalls, ht, hp]
    · simp [setupFramebuffer, fbStepCalls, ht, hp]

/-- The shader step panics exactly on a nil technique shader with a
different recorded shader; otherwise it issues `shStepCalls` and
records the technique's shader when present. -/
theorem setupShader_eq (t : Technique) (s : CacheState) :
    setupShader t s =
      (if t.shader = none ∧ s.prevShader ≠ none then none
       else some (shStepCalls t s.prevShader,
         { s with prevShader :=
             match t.shader with | some sh => some sh | none => s.prevShader })) := by
  obtain ⟨pb, pc, pm, pf, pv, ps, pfb, pe⟩ := s
  by_cases he : t.shader = ps
  · rcases ht : t.shader with _ | sh
    · rw [ht] at he
      simp [setupShader, shStepCalls, ht, ← he]
    · rw [ht] at he
      simp [setupShader, shStepCalls, ht, ← he]
  · rcases ht : t.shader with _ | sh
    · rw [ht] at he
      have hp : ps ≠ none := fun hn => he hn.symm
      simp [setupShader, shStepCalls, ht, hp, he]
    · rw [ht] at he
      simp [setupShader, shStepCalls, ht, he]

/-- The blend-function update issues `blendStepCalls` and records the
technique's blend function when present. -/
theorem setupBlend_eq (t : Technique) (s : CacheState) :
    setupBlend t s =
      (blendStepCalls t s.prevBlendFunc,
        { s with prevBlendFunc :=
            match t.blendFunc with | some b => some b | none => s.prevBlendFunc }) := by
  obtain ⟨pb, pc, pm, pf, pv, ps, pfb, pe⟩ := s
  rcases ht : t.blendFunc with _ | b
  · simp [setupBlend, blendStepCalls, ht]
  · by_cases he : blendFuncEquals b pb
    · have hb : pb = some b := blendFuncEquals_eq he
      simp [setupBlend, blendStepCalls, blendFuncEquals, ht, hb]
    · simp [setupBlend, blendStepCalls, ht, he]

/-- The cull-face update issues `cullStepCalls` and records the
technique's cull mode when present. -/
theorem setupCull_eq (t : Technique) (s : CacheState) :
    setupCull t s =
      (cullStepCalls t s.prevCullFace,
        { s with prevCullFace :=
            match t.cullFace with | some m => some m | none => s.prevCullFace }) := by
  obtain ⟨pb, pc, pm, pf, pv, ps, pfb, pe⟩ := s
  rcases ht : t.cullFace with _ | m
  · simp [setupCull, cullStepCalls, ht]
  · by_cases he : cullFaceEquals m pc
    · have hb : pc = some m := cullFaceEquals_eq he
      simp [setupCull, cullStepCalls, cullFaceEquals, ht, hb]
    · simp [setupCull, cullStepCalls, ht, he]

/-- The depth-mask update issues `maskStepCalls` and records the
technique's depth mask when present. -/
theorem setupMask_eq (t : Technique) (s : CacheState) :
    setupMask t s =
      (maskStepCalls t s.prevDepthMask,
        { s with prevDepthMask :=
            match t.depthMask with | some fl => some fl | none => s.prevDepthMask }) := by
  obtain ⟨pb, pc, pm, pf, pv, ps, pfb, pe⟩ := s
  rcases ht : t.depthMask with _ | fl
  · simp [setupMask, maskStepCalls, ht]
  · by_cases he : depthMaskEquals fl pm
    · have hb : pm = some fl := depthMaskEquals_eq he
      simp [setupMask, maskStepCalls, depthMaskEquals, ht, hb]
    · simp [setupMask, maskStepCalls, ht, he]

/-- The depth-function update issues `depthFnStepCalls` and records the
technique's depth function when present. -/
theorem setupDepthFn_eq (t : Technique) (s : CacheState) :
    setupDepthFn t s =
      (depthFnStepCalls t s.prevDepthFunc,
        { s with prevDepthFunc :=
            match t.depthFunc with | some xf => some xf | none => s.prevDepthFunc }) := by
  obtain ⟨pb, pc, pm, pf, pv, ps, pfb, pe⟩ := s
  rcases ht : t.depthFunc with _ | xf
  · simp [setupDepthFn, depthFnStepCalls, ht]
  · by_cases he : depthFuncEquals xf pf
    · have hb : pf = some xf := depthFuncEquals_eq he
      simp [setupDepthFn, depthFnStepCalls, depthFuncEquals, ht, hb]
    · simp [setupDepthFn, depthFnStepCalls, ht, he]

/-- The viewport step issues `vpStepCalls` and records the technique's
viewport when present. -/
theorem setupViewport_eq (t : Technique) (s : CacheState) :
    setupViewport t s =
      (vpStepCalls t s.prevViewport,
        { s with prevViewport :=
            match t.viewport with | some v => some v | none => s.prevViewport }) := by
  obtain ⟨pb, pc, pm, pf, pv, ps, pfb, pe⟩ := s
  rcases ht : t.viewport with _ | v
  · simp [setupViewport, vpStepCalls, ht]
  · by_cases he : viewportEquals v pv
    · have hb : pv = some v := viewportEquals_eq he
      simp [setupViewport, vpStepCalls, viewportEquals, ht, hb]
    · simp [setupViewport, vpStepCalls, ht, he]

/-- The fixed-function step issues the four update call lists and
records each present technique value. -/
theorem setupFuncs_eq (t : Technique) (s : CacheState) :
    setupFuncs t s =
      (blendStepCalls t s.prevBlendFunc ++ cullStepCalls t s.prevCullFace ++
          maskStepCalls t s.prevDepthMask ++ depthFnStepCalls t s.prevDepthFunc,
        { s with
          prevBlendFunc := match t.blendFunc with | some b => some b | none => s.prevBlendFunc
          prevCullFace := match t.cullFace with | some m => some m | none => s.prevCullFace
          prevDepthMask := match t.depthMask with | some fl => some fl | none => s.prevDepthMask
          prevDepthFunc :=
            match t.depthFunc with | some xf => some xf | none => s.prevDepthFunc }) := by
  obtain ⟨pb, pc, pm, pf, pv, ps, pfb, pe⟩ := s
  simp only [setupFuncs, setupBlend_eq, setupCull_eq, setupMask_eq, setupDepthFn_eq]

/-- Full characterization of `Technique.setup`: it panics exactly when
the technique has a nil shader while a different shader is recorded;
otherwise it issues `setupCalls` and leaves the cache in `postState`. -/
theorem setup_eq (t : Technique) (s : CacheState) :
    setup t s =
      if t.shader = none ∧ s.prevShader ≠ none then none
      else some (setupCalls t s, postState t s) := by
  obtain ⟨pb, pc, pm, pf, pv, ps, pfb, pe⟩ := s
  simp only [setup, setupFramebuffer_eq, setupShader_eq, setupEnables_eq, setupFuncs_eq,
    setupViewport_eq, setupCalls, postState]
  by_cases hp : t.shader = none ∧ ps ≠ none
  · simp [hp]
  · simp [hp]

/-- The framebuffer step never issues capability calls. -/
theorem fbStepCalls_no_cap (t : Technique) (pfb : Option Nat) (x : Nat) :
    Call.enable x ∉ fbStepCalls t pfb ∧ Call.disable x ∉ fbStepCalls t pfb := by
  unfold fbStepCalls
  rcases t.framebuffer with _ | f <;> split_ifs <;> simp

/-- The shader step never issues capability calls. -/
theorem shStepCalls_no_cap (t : Technique) (psh : Option Nat) (x : Nat) :
    Call.enable x ∉ shStepCalls t psh ∧ Call.disable x ∉ shStepCalls t psh := by
  unfold shStepCalls
  split_ifs
  · simp
  · rcases t.shader with _ | sh <;> simp

/-- The fixed-function updates never issue capability calls. -/
theorem fnStepCalls_no_cap (t : Technique) (pb : Option BlendFunc) (pc : Option Nat)
    (pm : Option Bool) (pf : Option Nat) (x : Nat) :
    (Call.enable x ∉ blendStepCalls t pb ∧ Call.disable x ∉ blendStepCalls t pb) ∧
    (Call.enable x ∉ cullStepCalls t pc ∧ Call.disable x ∉ cullStepCalls t pc) ∧
    (Call.enable x ∉ maskStepCalls t pm ∧ Call.disable x ∉ maskStepCalls t pm) ∧
    (Call.enable x ∉ depthFnStepCalls t pf ∧ Call.disable x ∉ depthFnStepCalls t pf) := by
  refine ⟨?_, ?_, ?_, ?_⟩
  · unfold blendStepCalls
    rcases t.blendFunc with _ | b <;> try split_ifs
    all_goals simp
  · unfold cullStepCalls
    rcases t.cullFace with _ | m <;> try split_ifs
    all_goals simp
  · unfold maskStepCalls
    rcases t.depthMask with _ | fl <;> try split_ifs
    all_goals simp
  · unfold depthFnStepCalls
    rcases t.depthFunc with _ | xf <;> try split_ifs
    all_goals simp

/-- The viewport step never issues capability calls. -/
theorem vpStepCalls_no_cap (t : Technique) (pv : Option Viewport) (x : Nat) :
    Call.enable x ∉ vpStepCalls t pv ∧ Call.disable x ∉ vpStepCalls t pv := by
  unfold vpStepCalls
  rcases t.viewport with _ | v <;> try split_ifs
  all_goals simp

/-- A `gl.Disable` call is in the capability step exactly for a
capability enabled in the snapshot but not requested. -/
theorem mem_capStepCalls_disable (t : Technique) (pen : Finset Nat) (x : Nat) :
    Call.disable x ∈ capStepCalls t pen ↔ x ∈ pen ∧ x ∉ t.enables.toFinset := by
  unfold capStepCalls
  simp [List.mem_map, Finset.mem_sort, Finset.mem_sdiff]

/-- A `gl.Enable` call is in the capability step exactly for a
requested capability not enabled in the snapshot. -/
theorem mem_capStepCalls_enable (t : Technique) (pen : Finset Nat) (x : Nat) :
    Call.enable x ∈ capStepCalls t pen ↔ x ∈ t.enables.toFinset ∧ x ∉ pen := by
  unfold capStepCalls
  simp [List.mem_map, Finset.mem_sort, mem_newEnables, List.mem_toFinset]

/-- When the snapshot already holds exactly the requested set, the
capability step issues nothing. -/
theorem capStepCalls_self (t : Technique) : capStepCalls t t.enables.toFinset = [] := by
  unfold capStepCalls
  rw [newEnables_of_subset _ _ (fun x hx => List.mem_toFinset.mpr hx)]
  simp

/-- Applying `postState` twice is the same as once: a second apply leaves the cache as the
first apply left it. -/
theorem postState_idem (t : Technique) (s : CacheState) :
    postState t (postState t s) = postState t s := by
  simp only [postState, CacheState.mk.injEq]
  refine ⟨?_, ?_, ?_, ?_, ?_, ?_, ?_, ?_⟩
  · rcases ht : t.blendFunc with _ | b <;> simp [ht]
  · rcases ht : t.cullFace with _ | m <;> simp [ht]
  · rcases ht : t.depthMask with _ | fl <;> simp [ht]
  · rcases ht : t.depthFunc with _ | xf <;> simp [ht]
  · rcases ht : t.viewport with _ | v <;> simp [ht]
  · rcases ht : t.shader with _ | sh <;> simp [ht]
  · rcases ht : t.framebuffer with _ | f <;> simp [ht]
  · trivial

/-- C5: a successful `apply` performs a full capability set
reconciliation: it disables exactly the capabilities enabled in the
snapshot but absent from the request, enables exactly the requested
capabilities absent from the snapshot, touches capabilities in both
with no call, and leaves the snapshot capability set equal to the
requested set. -/
theorem setup_capability_reconciliation (t : Technique) (s : CacheState)
    (calls : List Call) (s' : CacheState) (h : setup t s = some (calls, s')) :
    s'.prevEnables = t.enables.toFinset ∧
    (∀ x, Call.disable x ∈ calls ↔ x ∈ s.prevEnables ∧ x ∉ t.enables.toFinset) ∧
    (∀ x, Call.enable x ∈ calls ↔ x ∈ t.enables.toFinset ∧ x ∉ s.prevEnables) ∧
    (∀ x, x ∈ s.prevEnables → x ∈ t.enables.toFinset →
      Call.enable x ∉ calls ∧ Call.disable x ∉ calls) := by
  rw [setup_eq] at h
  by_cases hc : t.shader = none ∧ s.prevShader ≠ none
  · rw [if_pos hc] at h
    exact absurd h (by simp)
  · rw [if_neg hc, Option.some.injEq, Prod.mk.injEq] at h
    obtain ⟨hcalls, hstate⟩ := h
    subst hcalls
    subst hstate
    have hdis : ∀ x, Call.disable x ∈ setupCalls t s ↔
        x ∈ s.prevEnables ∧ x ∉ t.enables.toFinset := by
      intro x
      simp [setupCalls, List.mem_append, mem_capStepCalls_disable,
        (fbStepCalls_no_cap t s.prevFrameBuffer x).2, (shStepCalls_no_cap t s.prevShader x).2,
        (fnStepCalls_no_cap t s.prevBlendFunc s.prevCullFace s.prevDepthMask
          s.prevDepthFunc x).1.2,
        (fnStepCalls_no_cap t s.prevBlendFunc s.prevCullFace s.prevDepthMask
          s.prevDepthFunc x).2.1.2,
        (fnStepCalls_no_cap t s.prevBlendFunc s.prevCullFace s.prevDepthMask
          s.prevDepthFunc x).2.2.1.2,
        (fnStepCalls_no_cap t s.prevBlendFunc s.prevCullFace s.prevDepthMask
          s.prevDepthFunc x).2.2.2.2,
        (vpStepCalls_no_cap t s.prevViewport x).2]
    have hen : ∀ x, Call.enable x ∈ setupCalls t s ↔
        x ∈ t.enables.toFinset ∧ x ∉ s.prevEnables := by
      intro x
      simp [setupCalls, List.mem_append, mem_capStepCalls_enable,
        (fbStepCalls_no_cap t s.prevFrameBuffer x).1, (shStepCalls_no_cap t s.prevShader x).1,
        (fnStepCalls_no_cap t s.prevBlendFunc s.prevCullFace s.prevDepthMask
          s.prevDepthFunc x).1.1,
        (fnStepCalls_no_cap t s.prevBlendFunc s.prevCullFace s.prevDepthMask
          s.prevDepthFunc x).2.1.1,
        (fnStepCalls_no_cap t s.prevBlendFunc s.prevCullFace s.prevDepthMask
          s.prevDepthFunc x).2.2.1.1,
        (fnStepCalls_no_cap t s.prevBlendFunc s.prevCullFace s.prevDepthMask
          s.prevDepthFunc x).2.2.2.1,
        (vpStepCalls_no_cap t s.prevViewport x).1]
    refine ⟨by simp [postState], hdis, hen, ?_⟩
    intro x hx1 hx2
    exact ⟨fun hm => ((hen x).mp hm).2 hx1, fun hm => ((hdis x).mp hm).2 hx2⟩

/-- C5 witness: from snapshot capabilities {1, 2} and request [2, 3],
apply disables 1, enables 3, touches 2 with no call, and the resulting
snapshot capability set is {2, 3}. -/
theorem setup_capability_reconciliation_witness :
    ({ s5 with prevEnables := ({2, 3} : Finset Nat) } : CacheState).prevEnables =
        t5.enables.toFinset ∧
      (Call.disable 1 ∈ [Call.enable 3, Call.disable 1] ↔
        1 ∈ s5.prevEnables ∧ 1 ∉ t5.enables.toFinset) ∧
      (Call.enable 3 ∈ [Call.enable 3, Call.disable 1] ↔
        3 ∈ t5.enables.toFinset ∧ 3 ∉ s5.prevEnables) ∧
      (Call.enable 2 ∉ [Call.enable 3, Call.disable 1] ∧
        Call.disable 2 ∉ [Call.enable 3, Call.disable 1]) := by
  have hyp : setup t5 s5 = some ([Call.enable 3, Call.disable 1],
      { s5 with prevEnables := ({2, 3} : Finset Nat) }) := by
    rw [setup_eq, if_neg (by decide)]
    have hsd : ({1, 2} : Finset Nat) \ ({2, 3} : Finset Nat) = ({1} : Finset Nat) := by decide
    have ht23 : ([2, 3] : List Nat).toFinset = ({2, 3} : Finset Nat) := by decide
    simp [setupCalls, fbStepCalls, shStepCalls, capStepCalls, blendStepCalls, cullStepCalls,
      maskStepCalls, depthFnStepCalls, vpStepCalls, postState, t5, s5, hsd, ht23, newEnables,
      Finset.sort_singleton]
  have h := setup_capability_reconciliation t5 s5 [Call.enable 3, Call.disable 1]
    { s5 with prevEnables := ({2, 3} : Finset Nat) } hyp
  exact ⟨h.1, h.2.1 1, h.2.2.1 3, h.2.2.2 2 (by decide) (by decide)⟩

/-- C2 counterexample: the claim says a second apply of the same
technique immediately after a first issues zero state-changing calls.
With the framebuffer-less technique `tNil` and the cache still
recording framebuffer 1, `setup` issues the unbind call and leaves the
state unchanged (`sFB` itself) — so apply has just run for `tNil` with
resulting state `sFB`, and running it again issues that same unbind
call once more, a nonempty call list. -/
theorem setup_reapply_cex :
    setup tNil sFB = some ([Call.bindFramebuffer 0], sFB) ∧
      ([Call.bindFramebuffer 0] : List Call) ≠ [] := by
  constructor
  · rw [setup_eq, if_neg (by decide)]
    simp [setupCalls, fbStepCalls, shStepCalls, capStepCalls, blendStepCalls, cullStepCalls,
      maskStepCalls, depthFnStepCalls, vpStepCalls, postState, tNil, sFB, newEnables,
      Finset.sort_empty]
  · simp

/-- C2 (amended): after a successful apply of `t`, applying `t` again
issues zero device state-changing calls, except that when `t` has no
framebuffer while the snapshot still records one, the framebuffer
unbind call is reissued (exactly one bind-framebuffer-0 call and
nothing else, because the unbind never clears the recorded
framebuffer); the snapshot is unchanged in every case. -/
theorem setup_reapply_unbind_only (t : Technique) (s : CacheState) (calls₁ : List Call)
    (s₁ : CacheState) (h : setup t s = some (calls₁, s₁)) :
    setup t s₁ =
      some ((if t.framebuffer = none ∧ s₁.prevFrameBuffer ≠ none
             then [Call.bindFramebuffer 0] else []), s₁) := by
  rw [setup_eq] at h
  by_cases hc : t.shader = none ∧ s.prevShader ≠ none
  · rw [if_pos hc] at h
    exact absurd h (by simp)
  · rw [if_neg hc, Option.some.injEq, Prod.mk.injEq] at h
    obtain ⟨-, hstate⟩ := h
    subst hstate
    push_neg at hc
    have hsh : shStepCalls t (postState t s).prevShader = [] := by
      rcases hts : t.shader with _ | sh
      · have h0 : s.prevShader = none := hc hts
        simp [shStepCalls, postState, hts, h0]
      · simp [shStepCalls, postState, hts]
    have hcap : capStepCalls t (postState t s).prevEnables = [] := by
      simp [postState, capStepCalls_self]
    have hbl : blendStepCalls t (postState t s).prevBlendFunc = [] := by
      rcases htb : t.blendFunc with _ | b
      · simp [blendStepCalls, htb]
      · simp [blendStepCalls, postState, htb, blendFuncEquals]
    have hcu : cullStepCalls t (postState t s).prevCullFace = [] := by
      rcases htc : t.cullFace with _ | m
      · simp [cullStepCalls, htc]
      · simp [cullStepCalls, postState, htc, cullFaceEquals]
    have hma : maskStepCalls t (postState t s).prevDepthMask = [] := by
      rcases htm : t.depthMask with _ | fl
      · simp [maskStepCalls, htm]
      · simp [maskStepCalls, postState, htm, depthMaskEquals]
    have hdf : depthFnStepCalls t (postState t s).prevDepthFunc = [] := by
      rcases htd : t.depthFunc with _ | xf
      · simp [depthFnStepCalls, htd]
      · simp [depthFnStepCalls, postState, htd, depthFuncEquals]
    have hvp : vpStepCalls t (postState t s).prevViewport = [] := by
      rcases htv : t.viewport with _ | v
      · simp [vpStepCalls, htv]
      · simp [vpStepCalls, postState, htv, viewportEquals]
    have hfb : fbStepCalls t (postState t s).prevFrameBuffer =
        (if t.framebuffer = none ∧ (postState t s).prevFrameBuffer ≠ none
         then [Call.bindFramebuffer 0] else []) := by
      rcases htf : t.framebuffer with _ | f
      · simp [fbStepCalls, htf]
      · simp [fbStepCalls, postState, htf]
    have hnopanic : ¬(t.shader = none ∧ (postState t s).prevShader ≠ none) := by
      rintro ⟨hts, hne⟩
      have h0 : s.prevShader = none := hc hts
      exact hne (by simp [postState, hts, h0])
    rw [setup_eq, if_neg hnopanic, Option.some.injEq, Prod.mk.injEq]
    constructor
    · simp only [setupCalls]
      rw [hsh, hcap, hbl, hcu, hma, hdf, hvp, hfb]
      simp
    · exact postState_idem t s

/-- C2 witness: the amended statement at the all-empty technique and
cache, where a first apply issues nothing and a second apply issues
nothing again. -/
theorem setup_reapply_unbind_only_witness :
    setup tNil sEmpty = some ([], sEmpty) := by
  have h1 : setup tNil sEmpty = some ([], sEmpty) := by
    rw [setup_eq, if_neg (by decide)]
    simp [setupCalls, fbStepCalls, shStepCalls, capStepCalls, blendStepCalls, cullStepCalls,
      maskStepCalls, depthFnStepCalls, vpStepCalls, postState, tNil, sEmpty, newEnables,
      Finset.sort_empty]
  have h := setup_reapply_unbind_only tNil sEmpty [] sEmpty h1
  simpa [tNil, sEmpty] using h

/-- Membership after an overwriting map insert comes from the old map
or is the new binding. -/
theorem mem_insertD {κ α : Type} [DecidableEq κ] :
    ∀ (m : List (κ × α)) (k : κ) (v : α) (kv : κ × α),
      kv ∈ insertD m k v → kv ∈ m ∨ kv = (k, v) := by
  intro m
  induction m with
  | nil =>
    intro k v kv h
    simp [insertD] at h
    exact Or.inr (by simp [h])
  | cons kv0 rest ih =>
    intro k v kv h
    rw [insertD] at h
    by_cases hk : kv0.1 = k
    · rw [if_pos hk] at h
      rcases ih k v kv h with h1 | h2
      · exact Or.inl (List.mem_cons_of_mem _ h1)
      · exact Or.inr h2
    · rw [if_neg hk] at h
      rcases List.mem_cons.mp h with h1 | h2
      · exact Or.inl (by simp [h1])
      · rcases ih k v kv h2 with h3 | h4
        · exact Or.inl (List.mem_cons_of_mem _ h3)
        · exact Or.inr h4

/-- Zipping a mapped list with its source pairs each element with its
image. -/
theorem zip_map_self {α β : Type} (f : α → β) :
    ∀ l : List α, (l.map f).zip l = l.map (fun x => (f x, x)) := by
  intro l
  induction l with
  | nil => rfl
  | cons x rest ih => simp [ih]

/-- A foldl whose step only adds elements satisfying `Q` produces only
initial elements and `Q`-elements. -/
theorem mem_foldl_of_step {α γ : Type} (step : List γ → α → List γ) (Q : α → γ → Prop)
    (hstep : ∀ m x c, c ∈ step m x → c ∈ m ∨ Q x c) :
    ∀ (l : List α) (m0 : List γ) (c : γ), c ∈ l.foldl step m0 → c ∈ m0 ∨ ∃ x ∈ l, Q x c := by
  intro l
  induction l with
  | nil =>
    intro m0 c h
    exact Or.inl h
  | cons x rest ih =>
    intro m0 c h
    rcases ih (step m0 x) c h with h1 | ⟨y, hy, hQ⟩
    · rcases hstep m0 x c h1 with h2 | hQ
      · exact Or.inl h2
      · exact Or.inr ⟨x, List.mem_cons_self x rest, hQ⟩
    · exact Or.inr ⟨y, List.mem_cons_of_mem _ hy, hQ⟩

/-- C4 counterexample: the claim says the `Name` field equals the
device-reported name with exactly the null terminator stripped, and
that block member offsets are keyed by the unstripped name. On `prog4`
(uniform "color" reported as bytes 99,111,108,111,114,0), the emitted
`Name` is "colo" — one byte beyond the null terminator is stripped —
and the block offset key is the null-stripped "data", so looking the
offset up under the unstripped name fails. -/
theorem reflection_name_strip_cex :
    lookupD (queryUniforms prog4).1 [99, 111, 108, 111, 114] = some d4c ∧
      d4c.Name ≠ ([99, 111, 108, 111, 114, 0] : List Nat).dropLast ∧
      lookupD (queryUniforms prog4).2 [66, 108, 107] = some b4c ∧
      lookupD b4c.Offsets [100, 97, 116, 97, 0] = none ∧
      lookupD b4c.Offsets [100, 97, 116, 97] = some 16 := by
  decide

/-- C4 (amended): every descriptor the reflection emits is keyed by the
device-reported name with exactly the trailing null terminator
stripped, while its `Name` field has the null terminator AND one more
trailing byte stripped (`Name = key.dropLast`); every block member
offset is keyed by the device-reported name with exactly the null
terminator stripped (not the unstripped name). -/
theorem reflection_name_keys (p : GLProgram) :
    (∀ kv ∈ (queryUniforms p).1,
        kv.1 ∈ p.uniforms.map (fun u => goToString u.nameBytes) ∧
          kv.2.Name = kv.1.dropLast) ∧
    (∀ bkv ∈ (queryUniforms p).2, ∀ ok ∈ bkv.2.Offsets,
        ok.1 ∈ p.uniforms.map (fun u => goToString u.nameBytes)) := by
  constructor
  · intro kv hkv
    unfold queryUniforms at hkv
    simp only [zip_map_self, List.foldl_map] at hkv
    have hmem := mem_foldl_of_step
      (fun m u => if u.blockIndex = (-1 : Int) then
          insertD m (goToString u.nameBytes)
            { Name := (goToString u.nameBytes).dropLast, typ := u.typ, Count := u.count,
              Location := p.location (goToString u.nameBytes) }
        else m)
      (fun u kv => kv = (goToString u.nameBytes,
          { Name := (goToString u.nameBytes).dropLast, typ := u.typ, Count := u.count,
            Location := p.location (goToString u.nameBytes) }))
      ?hstep p.uniforms [] kv hkv
    case hstep =>
      intro m u c hc
      simp only at hc ⊢
      by_cases hb : u.blockIndex = (-1 : Int)
      · rw [if_pos hb] at hc
        exact mem_insertD m _ _ c hc
      · rw [if_neg hb] at hc
        exact Or.inl hc
    rcases hmem with h0 | ⟨u, hu, rfl⟩
    · simp at h0
    · exact ⟨List.mem_map.mpr ⟨u, hu, rfl⟩, rfl⟩
  · intro bkv hbkv ok hok
    unfold queryUniforms at hbkv
    simp only [zip_map_self, List.foldl_map] at hbkv
    have hmem := mem_foldl_of_step
      (fun m jb => insertD m (goToString (jb : Nat × GLBlock).2.nameBytes)
          { Name := goToString jb.2.nameBytes, Index := jb.1, Size := jb.2.size,
            Offsets :=
              ((p.uniforms.map (fun u => (goToString u.nameBytes, u))).filter
                  (fun nu => nu.2.blockIndex = (jb.1 : Int))).map
                (fun nu => (nu.1, nu.2.offset)),
            Alignment := p.alignment })
      (fun jb bkv => bkv = (goToString jb.2.nameBytes,
          { Name := goToString jb.2.nameBytes, Index := jb.1, Size := jb.2.size,
            Offsets :=
              ((p.uniforms.map (fun u => (goToString u.nameBytes, u))).filter
                  (fun nu => nu.2.blockIndex = (jb.1 : Int))).map
                (fun nu => (nu.1, nu.2.offset)),
            Alignment := p.alignment }))
      ?hstep2 p.blocks.enum [] bkv hbkv
    case hstep2 =>
      intro m jb c hc
      simp only at hc ⊢
      exact mem_insertD m _ _ c hc
    rcases hmem with h0 | ⟨jb, _, rfl⟩
    · simp at h0
    · simp only at hok
      rcases List.mem_map.mp hok with ⟨nu, hnu, rfl⟩
      rcases List.mem_filter.mp hnu with ⟨hnu2, -⟩
      rcases List.mem_map.mp hnu2 with ⟨u, hu, rfl⟩
      exact List.mem_map.mpr ⟨u, hu, rfl⟩

/-- C4 witness: the amended key and Name relations at `prog4`. -/
theorem reflection_name_keys_witness :
    (([99, 111, 108, 111, 114] : GoStr) ∈
        prog4.uniforms.map (fun u => goToString u.nameBytes) ∧
      d4c.Name = ([99, 111, 108, 111, 114] : GoStr).dropLast) ∧
      ([100, 97, 116, 97] : GoStr) ∈
        prog4.uniforms.map (fun u => goToString u.nameBytes) :=
  ⟨(reflection_name_keys prog4).1 ([99, 111, 108, 111, 114], d4c) (by decide),
   (reflection_name_keys prog4).2 ([66, 108, 107], b4c) (by decide)
     ([100, 97, 116, 97], 16) (by decide)⟩
